import Mathlib

/-!
# Forest light-transmission model

A shallow embedding of the numeric model of `src/components/RainforestSVG.jsx`
(the functions closed over the `controls` prop), of the preset table and its
lookup in `src/data/indianForestPresets.js`, of the preset handler of
`src/App.jsx`, and of the Live Conditions panel of
`src/components/ModelControls.jsx`.  A second embedding of
`calculateAutomaticLightPenetration`, in binary64 arithmetic, serves the claim
about the exact equality of two computed values.  JavaScript numbers are
idealised as real numbers, `Math.exp`, `Math.sin`, `Math.PI`, `Math.abs`,
`Math.max` and `Math.min` as their real counterparts.  A property of `controls`
that may be missing (`sunAngle`, `canopyGaps`, both read through `||`) is an
`Option`.
-/

namespace ForestLayer

/-- The `controls` object handed to the components: three numeric fields that
are always read directly, and two that the code reads through `x || default`. -/
structure ForestControls where
  canopyCover : ℝ
  lai : ℝ
  lightPenetration : ℝ
  sunAngle : Option ℝ
  canopyGaps : Option ℝ

/-- JavaScript `x || d` for a numeric-or-missing `x`: a missing value and the
falsy number `0` both give `d`, any other number gives itself. -/
noncomputable def orDefault (x : Option ℝ) (d : ℝ) : ℝ :=
  match x with
  | none => d
  | some v => if v = 0 then d else v

/-- The local constant `autoPenetration` of `calculateAutomaticLightPenetration`
(RainforestSVG.jsx, lines 52-62). -/
noncomputable def autoPenetration (controls : ForestControls) : ℝ :=
  let canopyDensityFactor := controls.canopyCover / 100
  let laiFactor := controls.lai / 10
  let basePenetration := Real.exp (-0.8 * canopyDensityFactor * (1 + laiFactor))
  5 + (basePenetration * 95)

/-- The local constant `angleFactor` of `calculateAutomaticLightPenetration`
(RainforestSVG.jsx, lines 67-71). -/
noncomputable def angleFactor (controls : ForestControls) : ℝ :=
  let sunAngle := orDefault controls.sunAngle 45
  let angleRad := (sunAngle * Real.pi) / 180
  |Real.sin angleRad|

/-- `calculateAutomaticLightPenetration` (RainforestSVG.jsx, lines 51-77). -/
noncomputable def calculateAutomaticLightPenetration (controls : ForestControls) : ℝ :=
  autoPenetration controls * (controls.lightPenetration / 100) *
    (0.7 + 0.3 * angleFactor controls)

/-- `calculateBiodiversity` (RainforestSVG.jsx, lines 81-95). -/
noncomputable def calculateBiodiversity (controls : ForestControls) : ℝ :=
  let canopyDensityFactor := controls.canopyCover / 100
  let laiFactor := controls.lai / 10
  let gapFactor := min 20 (orDefault controls.canopyGaps 0) / 20
  let structureFactor := canopyDensityFactor * 0.4 + laiFactor * 0.3
  let diversityScore := (structureFactor * 50) + (gapFactor * 30) + 20
  min 100 (max 20 diversityScore)

/-- `calculateLayerLight` (RainforestSVG.jsx, lines 99-135).  A layer id that is
none of the four known ones leaves `lightLevel` at its initial `100`. -/
noncomputable def calculateLayerLight (controls : ForestControls) (layerId : String) : ℝ :=
  let lightAttenuationCoefficient : ℝ := 0.5
  let canopyDensityFactor := controls.canopyCover / 100
  let effectivePenetration := calculateAutomaticLightPenetration controls / 100
  if layerId = "emergent" then
    max 90 (100 - (controls.lai * 0.8)) * effectivePenetration
  else if layerId = "canopy" then
    let attenuation :=
      Real.exp (-lightAttenuationCoefficient * controls.lai * canopyDensityFactor)
    (70 + (30 * attenuation)) * (0.7 + 0.3 * (1 - canopyDensityFactor)) * effectivePenetration
  else if layerId = "understory" then
    let canopyTransmission :=
      Real.exp (-lightAttenuationCoefficient * controls.lai * canopyDensityFactor * 1.5)
    let lightLevel := 5 + (10 * canopyTransmission * effectivePenetration)
    max 2 (min 15 lightLevel)
  else if layerId = "forest-floor" then
    let floorTransmission :=
      Real.exp (-lightAttenuationCoefficient * controls.lai * canopyDensityFactor * 2)
    let lightLevel := 1 + (2 * floorTransmission * effectivePenetration)
    max 0.5 (min 5 lightLevel)
  else
    100

/-- `getLayerOpacity` (RainforestSVG.jsx, lines 137-152).  The `lightLevel`
computed on line 144 is never used and is left out. -/
noncomputable def getLayerOpacity (controls : ForestControls) (layerId : String) : ℝ :=
  if layerId = "canopy" then
    let densityFactor := (controls.canopyCover / 100) * 0.7 + (controls.lai / 10) * 0.3
    min 0.95 (max 0.3 (0.3 + densityFactor * 0.65))
  else if layerId = "emergent" then
    0.9
  else
    let effectivePenetration := calculateAutomaticLightPenetration controls / 100
    0.7 + (0.3 * effectivePenetration)

/-- The local constant `structureFactor` of `calculateBiodiversity`
(RainforestSVG.jsx, lines 82-91). -/
noncomputable def structureFactor (controls : ForestControls) : ℝ :=
  let canopyDensityFactor := controls.canopyCover / 100
  let laiFactor := controls.lai / 10
  canopyDensityFactor * 0.4 + laiFactor * 0.3

/-- The constant `windResistance` of the animation effect
(RainforestSVG.jsx, line 169). -/
noncomputable def windResistance (controls : ForestControls) : ℝ :=
  1 + (controls.canopyCover / 100) * 0.5 + (controls.lai / 10) * 0.3

/-- The constant `emergentWindForce` (RainforestSVG.jsx, line 170). -/
noncomputable def emergentWindForce (controls : ForestControls) : ℝ :=
  1.5 / windResistance controls

/-- The constant `canopyWindForce` (RainforestSVG.jsx, line 171). -/
noncomputable def canopyWindForce (controls : ForestControls) : ℝ :=
  1.0 / windResistance controls

/-- The constant `understoryWindForce` (RainforestSVG.jsx, line 172). -/
noncomputable def understoryWindForce (controls : ForestControls) : ℝ :=
  0.5 / windResistance controls

/-! ## Preset table (`src/data/indianForestPresets.js`) -/

/-- The `colors` record of a preset. -/
structure PresetColors where
  trunk : String
  canopy : String
  understory : String
  floor : String

/-- The `characteristics` record of a preset. -/
structure PresetCharacteristics where
  treeHeight : String
  density : String
  understory : String
  biodiversity : String

/-- One element of the `sources` array of a preset. -/
structure PresetSource where
  name : String
  url : String

/-- One element of the array `indianForestPresets`. -/
structure ForestPreset where
  id : String
  name : String
  shortName : String
  description : String
  location : String
  detailedDescription : String
  canopyCover : ℝ
  lai : ℝ
  lightPenetration : ℝ
  sunAngle : ℝ
  canopyGaps : ℝ
  treeTypes : List String
  colors : PresetColors
  characteristics : PresetCharacteristics
  sources : List PresetSource
  visualImageQueries : List String

/-- The entry `tropical-wet-evergreen` of `indianForestPresets`. -/
noncomputable def tropicalWetEvergreen : ForestPreset where
  id := "tropical-wet-evergreen"
  name := "Tropical Wet Evergreen"
  shortName := "Wet Evergreen"
  description := "Dense, multilayered canopy with high rainfall (200-300 cm/year)"
  location := "Western Ghats, Northeastern states, Andaman & Nicobar"
  detailedDescription := "Tropical Wet Evergreen forests are characterized by their extremely dense, multilayered canopy structure. These forests receive very high annual rainfall (200-300 cm), creating a humid, lush environment.

**Visual Characteristics:**
- Very tall trees (up to 60m) with dense, overlapping canopies
- High canopy cover (90%) creating deep shade below
- Rich, dark green foliage throughout all layers
- Moderate understory vegetation due to limited light penetration
- Thick leaf litter on the forest floor

**Ecological Features:**
- Highest biodiversity among Indian forests
- Trees remain green year-round (evergreen)
- High humidity and stable temperatures
- Complex vertical stratification with distinct layers
- Home to many endemic species"
  canopyCover := 90
  lai := 7.5
  lightPenetration := 60
  sunAngle := 75
  canopyGaps := 3
  treeTypes := ["tall", "very-tall", "dense"]
  colors := { trunk := "#4A3728", canopy := "#1A5F1A", understory := "#2D5016", floor := "#3D5F1F" }
  characteristics := { treeHeight := "very-tall", density := "very-dense", understory := "moderate", biodiversity := "very-high" }
  sources := [
    { name := "ClearIAS - Types of Forests in India",
      url := "https://www.clearias.com/types-of-forests/" },
    { name := "Ministry of Environment, Forest and Climate Change, India",
      url := "https://moef.gov.in/" }]
  visualImageQueries := [
    "dense tropical evergreen forest India Western Ghats",
    "tall rainforest trees multilayered canopy India"]

/-- The entry `tropical-semi-evergreen` of `indianForestPresets`. -/
noncomputable def tropicalSemiEvergreen : ForestPreset where
  id := "tropical-semi-evergreen"
  name := "Tropical Semi-Evergreen"
  shortName := "Semi-Evergreen"
  description := "Mix of evergreen and deciduous species, intermediate rainfall (150-250 cm/year)"
  location := "Western Ghats, Odisha, Andaman & Nicobar"
  detailedDescription := "Tropical Semi-Evergreen forests represent a transition zone between evergreen and deciduous forests. They feature a mix of tree species, some retaining leaves year-round while others shed seasonally.

**Visual Characteristics:**
- Tall trees with moderately dense canopy (75% cover)
- Mix of dark green (evergreen) and seasonal foliage
- More light penetration than wet evergreen forests
- Moderate understory growth
- Varied canopy structure with some gaps

**Ecological Features:**
- Intermediate rainfall (150-250 cm/year)
- Combination of evergreen and deciduous species
- High biodiversity with transitional species
- Seasonal variation in canopy density
- Supports both tropical and subtropical species"
  canopyCover := 75
  lai := 6.0
  lightPenetration := 65
  sunAngle := 70
  canopyGaps := 5
  treeTypes := ["tall", "medium", "mixed"]
  colors := { trunk := "#5D4E37", canopy := "#2D5016", understory := "#3D5F1F", floor := "#4A6741" }
  characteristics := { treeHeight := "tall", density := "dense", understory := "moderate", biodiversity := "high" }
  sources := [
    { name := "ClearIAS - Types of Forests in India",
      url := "https://www.clearias.com/types-of-forests/" },
    { name := "India State of Forest Report (ISFR)",
      url := "https://fsi.nic.in/isfr-2021" }]
  visualImageQueries := [
    "semi evergreen forest India mixed species",
    "tropical forest canopy gaps light penetration"]

/-- The entry `tropical-moist-deciduous` of `indianForestPresets`. -/
noncomputable def tropicalMoistDeciduous : ForestPreset where
  id := "tropical-moist-deciduous"
  name := "Tropical Moist Deciduous"
  shortName := "Moist Deciduous"
  description := "Most extensive forest type, moderate rainfall (100-200 cm/year), trees shed leaves in dry season"
  location := "Eastern India, Himalayan foothills, Central India"
  detailedDescription := "Tropical Moist Deciduous forests are the most extensive forest type in India. These forests experience seasonal changes, with trees shedding leaves during the dry season and regrowing them during monsoon.

**Visual Characteristics:**
- Medium to tall trees with moderate canopy density (65% cover)
- Seasonal leaf shedding creates varying canopy appearance
- More open structure allows greater light penetration
- Dense understory vegetation thrives with increased sunlight
- Lighter green tones compared to evergreen forests

**Ecological Features:**
- Moderate rainfall (100-200 cm/year) with distinct wet and dry seasons
- Trees shed leaves in dry season to conserve water
- High biodiversity with many commercially valuable species (teak, sal)
- Supports diverse wildlife including large mammals
- Most extensive forest type covering large areas of India"
  canopyCover := 65
  lai := 5.0
  lightPenetration := 70
  sunAngle := 65
  canopyGaps := 8
  treeTypes := ["medium", "tall", "sparse"]
  colors := { trunk := "#6B4423", canopy := "#3D5F1F", understory := "#4A6741", floor := "#556B2F" }
  characteristics := { treeHeight := "medium-tall", density := "moderate", understory := "dense", biodiversity := "high" }
  sources := [
    { name := "ClearIAS - Types of Forests in India",
      url := "https://www.clearias.com/types-of-forests/" },
    { name := "Jagran Josh - Types of Forests in India",
      url := "https://www.jagranjosh.com/general-knowledge/types-of-forests-in-india-1440149324-1" }]
  visualImageQueries := [
    "teak sal forest India deciduous monsoon",
    "moist deciduous forest understory dense vegetation"]

/-- The entry `tropical-dry-deciduous` of `indianForestPresets`. -/
noncomputable def tropicalDryDeciduous : ForestPreset where
  id := "tropical-dry-deciduous"
  name := "Tropical Dry Deciduous"
  shortName := "Dry Deciduous"
  description := "Open canopy, lower rainfall (50-100 cm/year), seasonal leaf shedding"
  location := "Deccan Plateau, Gangetic plains"
  detailedDescription := "Tropical Dry Deciduous forests have an open, sparse canopy structure adapted to lower rainfall conditions. These forests experience significant seasonal variation.

**Visual Characteristics:**
- Open canopy with only 45% cover, allowing abundant sunlight
- Medium-height trees with sparse distribution
- Light green to yellowish foliage, especially in dry season
- Sparse understory with drought-resistant plants
- More visible ground with less leaf litter

**Ecological Features:**
- Lower rainfall (50-100 cm/year) with long dry seasons
- Trees shed leaves for extended periods to conserve water
- Adapted to semi-arid conditions
- Moderate biodiversity with drought-tolerant species
- Important for grazing and supports various wildlife"
  canopyCover := 45
  lai := 3.5
  lightPenetration := 80
  sunAngle := 60
  canopyGaps := 12
  treeTypes := ["medium", "short", "sparse"]
  colors := { trunk := "#8B6F47", canopy := "#556B2F", understory := "#6B8E23", floor := "#8FBC8F" }
  characteristics := { treeHeight := "medium", density := "sparse", understory := "sparse", biodiversity := "moderate" }
  sources := [
    { name := "Wikipedia - Central Deccan Plateau Dry Deciduous Forests",
      url := "https://en.wikipedia.org/wiki/Central_Deccan_Plateau_dry_deciduous_forests" },
    { name := "ClearIAS - Types of Forests in India",
      url := "https://www.clearias.com/types-of-forests/" }]
  visualImageQueries := [
    "dry deciduous forest India open canopy sparse",
    "Deccan Plateau forest seasonal leaf shedding"]

/-- The entry `tropical-thorn` of `indianForestPresets`. -/
noncomputable def tropicalThorn : ForestPreset where
  id := "tropical-thorn"
  name := "Tropical Thorn Forests"
  shortName := "Thorn Forests"
  description := "Sparse vegetation adapted to drought, rainfall less than 50 cm/year"
  location := "Rajasthan, Gujarat, Haryana, Punjab"
  detailedDescription := "Tropical Thorn Forests are characterized by extremely sparse vegetation adapted to arid and semi-arid conditions. These are the driest forest ecosystems in India.

**Visual Characteristics:**
- Very sparse canopy with only 25% cover
- Short, stunted trees with thorny branches
- Light brown to tan colored vegetation
- Minimal understory - mostly bare ground
- Wide spacing between trees with abundant sunlight

**Ecological Features:**
- Very low rainfall (less than 50 cm/year)
- Extreme drought adaptation with water-conserving features
- Thorny plants to deter herbivores
- Low to moderate biodiversity
- Adapted to high temperatures and water scarcity
- Important for desert ecosystems and grazing"
  canopyCover := 25
  lai := 1.5
  lightPenetration := 95
  sunAngle := 55
  canopyGaps := 15
  treeTypes := ["short", "sparse", "thorny"]
  colors := { trunk := "#A0826D", canopy := "#8B7355", understory := "#9C8B7A", floor := "#D2B48C" }
  characteristics := { treeHeight := "short", density := "very-sparse", understory := "very-sparse", biodiversity := "low-moderate" }
  sources := [
    { name := "ClearIAS - Types of Forests in India",
      url := "https://www.clearias.com/types-of-forests/" },
    { name := "India State of Forest Report (ISFR)",
      url := "https://fsi.nic.in/isfr-2021" }]
  visualImageQueries := [
    "thorn forest Rajasthan sparse vegetation desert",
    "arid forest India drought adapted trees"]

/-- The entry `montane` of `indianForestPresets`. -/
noncomputable def montane : ForestPreset where
  id := "montane"
  name := "Montane Forests"
  shortName := "Montane"
  description := "Diverse vertical stratification, varied with altitude, high moisture"
  location := "Himalayas, Nilgiris"
  detailedDescription := "Montane Forests are found at higher elevations and show diverse characteristics that vary with altitude. These forests experience cooler temperatures and high moisture levels.

**Visual Characteristics:**
- Tall trees with moderate to dense canopy (70% cover)
- Mix of coniferous (pine, fir) and broadleaf species
- Dark green, often bluish-green coniferous foliage
- Moderate understory with mosses and ferns
- Distinct vertical stratification based on elevation

**Ecological Features:**
- High altitude locations (Himalayas, Nilgiris)
- Cooler temperatures and high moisture/humidity
- Diverse species composition varying with elevation
- High biodiversity with many endemic species
- Important for water catchment and climate regulation
- Supports unique alpine and subalpine ecosystems"
  canopyCover := 70
  lai := 5.5
  lightPenetration := 65
  sunAngle := 50
  canopyGaps := 6
  treeTypes := ["tall", "coniferous", "mixed"]
  colors := { trunk := "#5D4E37", canopy := "#2F5233", understory := "#3D5A3D", floor := "#4A6741" }
  characteristics := { treeHeight := "tall", density := "moderate-dense", understory := "moderate", biodiversity := "high" }
  sources := [
    { name := "Wikipedia - Shola Forests",
      url := "https://en.wikipedia.org/wiki/Shola" },
    { name := "India State of Forest Report (ISFR)",
      url := "https://fsi.nic.in/isfr-2021" }]
  visualImageQueries := [
    "montane forest Himalayas coniferous pine",
    "mountain forest Nilgiris elevation mosses ferns"]

/-- The array `indianForestPresets` (indianForestPresets.js, lines 4-331). -/
noncomputable def indianForestPresets : List ForestPreset :=
  [tropicalWetEvergreen, tropicalSemiEvergreen, tropicalMoistDeciduous,
    tropicalDryDeciduous, tropicalThorn, montane]

/-- `getPresetById` (indianForestPresets.js, lines 334-336): the first entry
whose `id` is the argument, `null` (here `none`) when `find` has no match. -/
noncomputable def getPresetById (id : String) : Option ForestPreset :=
  indianForestPresets.find? (fun preset => preset.id == id)

/-- `getDefaultPreset` (indianForestPresets.js, lines 339-341):
`indianForestPresets[0]`. -/
noncomputable def getDefaultPreset : ForestPreset :=
  tropicalWetEvergreen

/-! ## Application state (`src/App.jsx`) -/

/-- The `useState` cells of `App` (App.jsx, lines 21-36). -/
structure AppState where
  selectedLayer : Option String
  showControls : Bool
  showQuiz : Bool
  showAbout : Bool
  activeModule : Option String
  exploredLayers : List String
  presetInfoId : Option String
  selectedPreset : String
  controls : ForestControls

/-- `handlePresetChange` (App.jsx, lines 56-68): the state after the handler
has run and React has applied its `setSelectedPreset` and `setControls`. -/
noncomputable def handlePresetChange (s : AppState) (presetId : String) : AppState :=
  match getPresetById presetId with
  | some preset =>
    { s with
      selectedPreset := presetId
      controls :=
        { canopyCover := preset.canopyCover
          lai := preset.lai
          lightPenetration := preset.lightPenetration
          sunAngle := some preset.sunAngle
          canopyGaps := some preset.canopyGaps } }
  | none => s

/-- The initial value of the `controls` state of `App` (App.jsx, lines 28-36):
the five numeric fields of `getDefaultPreset()`. -/
noncomputable def initialControls : ForestControls :=
  { canopyCover := getDefaultPreset.canopyCover
    lai := getDefaultPreset.lai
    lightPenetration := getDefaultPreset.lightPenetration
    sunAngle := some getDefaultPreset.sunAngle
    canopyGaps := some getDefaultPreset.canopyGaps }

/-- The documented ranges of the five control fields: canopyCover in [0,100],
lai in [0,10], lightPenetration in [0,100], sunAngle present and in [0,180],
canopyGaps present and an integer in [0,20]. -/
def ForestControls.InRange (c : ForestControls) : Prop :=
  (0 ≤ c.canopyCover ∧ c.canopyCover ≤ 100) ∧
  (0 ≤ c.lai ∧ c.lai ≤ 10) ∧
  (0 ≤ c.lightPenetration ∧ c.lightPenetration ≤ 100) ∧
  (∃ a : ℝ, c.sunAngle = some a ∧ 0 ≤ a ∧ a ≤ 180) ∧
  (∃ n : ℤ, c.canopyGaps = some (n : ℝ) ∧ 0 ≤ n ∧ n ≤ 20)

/-- JavaScript `Math.round`: the nearest integer, a half going up. -/
noncomputable def mathRound (x : ℝ) : ℤ :=
  ⌊x + 1 / 2⌋

/-- JavaScript `Math.floor`. -/
noncomputable def mathFloor (x : ℝ) : ℤ :=
  ⌊x⌋

/-! ## Live Conditions panel (`src/components/ModelControls.jsx`) -/

/-- The local constant `effectivePenetration` of the Live Conditions panel
(ModelControls.jsx, lines 244-251), already divided by 100. -/
noncomputable def ModelControls.effectivePenetration (controls : ForestControls) : ℝ :=
  let canopyDensityFactor := controls.canopyCover / 100
  let laiFactor := controls.lai / 10
  let basePenetration := Real.exp (-0.8 * canopyDensityFactor * (1 + laiFactor))
  let autoPenetration := 5 + (basePenetration * 95)
  let sunAngle := orDefault controls.sunAngle 45
  let angleRad := (sunAngle * Real.pi) / 180
  let angleFactor := |Real.sin angleRad|
  (autoPenetration * (controls.lightPenetration / 100) * (0.7 + 0.3 * angleFactor)) / 100

/-- The local constant `emergentLight` of the panel (ModelControls.jsx, line 257). -/
noncomputable def ModelControls.emergentLight (controls : ForestControls) : ℝ :=
  max 90 (100 - (controls.lai * 0.8)) * ModelControls.effectivePenetration controls

/-- The local constant `canopyLight` of the panel (ModelControls.jsx, lines 260-261). -/
noncomputable def ModelControls.canopyLight (controls : ForestControls) : ℝ :=
  let lightAttenuationCoefficient : ℝ := 0.5
  let canopyDensityFactor := controls.canopyCover / 100
  let canopyAttenuation :=
    Real.exp (-lightAttenuationCoefficient * controls.lai * canopyDensityFactor)
  (70 + (30 * canopyAttenuation)) * (0.7 + 0.3 * (1 - canopyDensityFactor))
    * ModelControls.effectivePenetration controls

/-- The local constant `understoryLight` of the panel (ModelControls.jsx, lines 264-265). -/
noncomputable def ModelControls.understoryLight (controls : ForestControls) : ℝ :=
  let lightAttenuationCoefficient : ℝ := 0.5
  let canopyDensityFactor := controls.canopyCover / 100
  let understoryTransmission :=
    Real.exp (-lightAttenuationCoefficient * controls.lai * canopyDensityFactor * 1.5)
  max 2 (min 15 (5 + (10 * understoryTransmission * ModelControls.effectivePenetration controls)))

/-- The local constant `floorLight` of the panel (ModelControls.jsx, lines 268-269). -/
noncomputable def ModelControls.floorLight (controls : ForestControls) : ℝ :=
  let lightAttenuationCoefficient : ℝ := 0.5
  let canopyDensityFactor := controls.canopyCover / 100
  let floorTransmission :=
    Real.exp (-lightAttenuationCoefficient * controls.lai * canopyDensityFactor * 2)
  max 0.5 (min 5 (1 + (2 * floorTransmission * ModelControls.effectivePenetration controls)))

/-- The Tree Density number shown by the panel (ModelControls.jsx, line 307). -/
noncomputable def ModelControls.treeDensity (controls : ForestControls) : ℤ :=
  mathRound ((controls.canopyCover / 100) * 100 + (controls.lai / 10) * 30)

/-- The Biodiversity Index number shown by the panel (ModelControls.jsx,
lines 313-320). -/
noncomputable def ModelControls.biodiversityIndex (controls : ForestControls) : ℤ :=
  let canopyDensityFactor := controls.canopyCover / 100
  let laiFactor := controls.lai / 10
  let gapFactor := min 20 (orDefault controls.canopyGaps 0) / 20
  let structureFactor := canopyDensityFactor * 0.4 + laiFactor * 0.3
  let diversityScore := (structureFactor * 50) + (gapFactor * 30) + 20
  mathRound (min 100 (max 20 diversityScore))

/-! ## Light rays (`src/components/RainforestSVG.jsx`, lines 467-510) -/

/-- The local constant `rayCount` of the light-ray layer
(RainforestSVG.jsx, lines 469 and 506). -/
noncomputable def rayCount (controls : ForestControls) : ℤ :=
  let emergentLight := calculateLayerLight controls "emergent"
  mathFloor (5 + (emergentLight / 100) * 5)

/-! ## Binary64 arithmetic

JavaScript numbers are IEEE-754 binary64 values.  The definitions of this section
model rounding to nearest, ties to even, on the reals (normal range only: no
overflow, subnormal numbers, signed zero or NaN) and repeat
`calculateAutomaticLightPenetration` with a rounding after every operation.
They are used where a claim asserts the exact equality of two computed values,
which the real-number embedding above cannot decide. -/

/-- The spacing of the binary64 numbers in the binade of `x`:
`2 ^ (⌊log2 |x|⌋ - 52)`. -/
noncomputable def F64.ulp (x : ℝ) : ℝ :=
  (2 : ℝ) ^ (Int.log 2 |x| - 52)

/-- Rounding of a real to the nearest integer, a tie going to the even one. -/
noncomputable def F64.roundHalfEven (x : ℝ) : ℤ :=
  if Int.fract x < 1 / 2 then ⌊x⌋
  else if 1 / 2 < Int.fract x then ⌊x⌋ + 1
  else if ⌊x⌋ % 2 = 0 then ⌊x⌋
  else ⌊x⌋ + 1

/-- The binary64 number nearest to `x` (ties to even): the result of every
JavaScript arithmetic operation whose exact result is `x`. -/
noncomputable def F64.round (x : ℝ) : ℝ :=
  (F64.roundHalfEven (x / F64.ulp x) : ℝ) * F64.ulp x

/-- The two library functions the model calls, `Math.sin` and `Math.exp`, whose
results ECMAScript leaves to the implementation. -/
structure JSMath where
  sin : ℝ → ℝ
  exp : ℝ → ℝ

/-- What is assumed of an implementation: `Math.exp(0)` is 1 (required by
ECMAScript) and `Math.sin` has a relative error of at most `2^-52` (every result
within one unit in the last place has). -/
def JSMath.Faithful (M : JSMath) : Prop :=
  M.exp 0 = 1 ∧ ∀ x : ℝ, |M.sin x - Real.sin x| ≤ (2 : ℝ) ^ (-52 : ℤ) * |Real.sin x|

/-- `Math.sin` returns the correctly rounded sine at the argument `x`. -/
def JSMath.SinCorrectlyRoundedAt (M : JSMath) (x : ℝ) : Prop :=
  M.sin x = F64.round (Real.sin x)

/-- The implementation whose `Math.sin` and `Math.exp` are correctly rounded. -/
noncomputable def JSMath.correctlyRounded : JSMath where
  sin := fun x => F64.round (Real.sin x)
  exp := fun x => F64.round (Real.exp x)

/-- `Math.PI`, the binary64 number nearest to pi. -/
noncomputable def Math.PI : ℝ :=
  884279719003555 / 281474976710656

/-- The local constant `angleRad` of `calculateAutomaticLightPenetration`
(RainforestSVG.jsx, line 68) in binary64 arithmetic. -/
noncomputable def angleRadF64 (sunAngle : ℝ) : ℝ :=
  F64.round (F64.round (sunAngle * Math.PI) / 180)

/-- `calculateAutomaticLightPenetration` (RainforestSVG.jsx, lines 51-77) in
binary64 arithmetic: every operation is followed by `F64.round`, the decimal
literals 0.8, 0.7 and 0.3 are rounded, and the integer literals are exact. -/
noncomputable def calculateAutomaticLightPenetrationF64 (M : JSMath)
    (controls : ForestControls) : ℝ :=
  let canopyDensityFactor := F64.round (controls.canopyCover / 100)
  let laiFactor := F64.round (controls.lai / 10)
  let basePenetration :=
    M.exp (F64.round (F64.round (-(F64.round 0.8) * canopyDensityFactor)
      * F64.round (1 + laiFactor)))
  let autoPenetration := F64.round (5 + F64.round (basePenetration * 95))
  let sunAngle := orDefault controls.sunAngle 45
  let angleRad := angleRadF64 sunAngle
  let angleFactor := |M.sin angleRad|
  F64.round (F64.round (autoPenetration * F64.round (controls.lightPenetration / 100))
    * F64.round (F64.round 0.7 + F64.round (F64.round 0.3 * angleFactor)))

/-! ## Auxiliary facts -/

lemma autoPenetration_eq (c : ForestControls) :
    autoPenetration c
      = 5 + Real.exp (-0.8 * (c.canopyCover / 100) * (1 + c.lai / 10)) * 95 := rfl

lemma autoPenetration_pos (c : ForestControls) : 0 < autoPenetration c := by
  rw [autoPenetration_eq]
  have := Real.exp_pos (-0.8 * (c.canopyCover / 100) * (1 + c.lai / 10))
  linarith

lemma angleFactor_nonneg (c : ForestControls) : 0 ≤ angleFactor c := by
  unfold angleFactor
  exact abs_nonneg _

lemma angleFactor_le_one (c : ForestControls) : angleFactor c ≤ 1 := by
  unfold angleFactor
  exact Real.abs_sin_le_one _

lemma calculateAutomaticLightPenetration_eq (c : ForestControls) :
    calculateAutomaticLightPenetration c
      = autoPenetration c * (c.lightPenetration / 100) * (0.7 + 0.3 * angleFactor c) := rfl

lemma angleFactor_some (c : ForestControls) (a : ℝ) (ha : a ≠ 0) :
    angleFactor { c with sunAngle := some a } = |Real.sin (a * Real.pi / 180)| := by
  simp [angleFactor, orDefault, ha]

lemma angleFactor_zero (c : ForestControls) :
    angleFactor { c with sunAngle := some 0 } = |Real.sin (45 * Real.pi / 180)| := by
  simp [angleFactor, orDefault]

lemma angleFactor_none (c : ForestControls) :
    angleFactor { c with sunAngle := none } = |Real.sin (45 * Real.pi / 180)| := by
  simp [angleFactor, orDefault]

lemma sin_deg_45 : Real.sin (45 * Real.pi / 180) = Real.sqrt 2 / 2 := by
  have : (45 : ℝ) * Real.pi / 180 = Real.pi / 4 := by ring
  rw [this, Real.sin_pi_div_four]

lemma sin_deg_90 : Real.sin (90 * Real.pi / 180) = 1 := by
  have : (90 : ℝ) * Real.pi / 180 = Real.pi / 2 := by ring
  rw [this, Real.sin_pi_div_two]

lemma autoPenetration_strictAnti_canopyCover_aux (c : ForestControls) (c1 c2 : ℝ)
    (hl0 : 0 ≤ c.lai) (h12 : c1 < c2) :
    autoPenetration { c with canopyCover := c2 }
      < autoPenetration { c with canopyCover := c1 } := by
  rw [autoPenetration_eq, autoPenetration_eq]
  have h2 : 0 < 1 + c.lai / 10 := by positivity
  have harg : -0.8 * (c2 / 100) * (1 + c.lai / 10) < -0.8 * (c1 / 100) * (1 + c.lai / 10) := by
    have : c1 / 100 < c2 / 100 := by linarith
    nlinarith [mul_pos (sub_pos.mpr this) h2]
  have := Real.exp_lt_exp.mpr harg
  simp only
  linarith

/-! ## Bounds -/

/-- C1: for every controls value, the understory light level lies in [2,15] and
the forest-floor light level lies in [0.5,5]. -/
theorem calculateLayerLight_lower_layers_bounds (c : ForestControls) :
    (2 ≤ calculateLayerLight c "understory" ∧ calculateLayerLight c "understory" ≤ 15) ∧
    (0.5 ≤ calculateLayerLight c "forest-floor" ∧ calculateLayerLight c "forest-floor" ≤ 5) := by
  have hu : calculateLayerLight c "understory"
      = max 2 (min 15 (5 + (10 * Real.exp (-0.5 * c.lai * (c.canopyCover / 100) * 1.5)
          * (calculateAutomaticLightPenetration c / 100)))) := by
    simp [calculateLayerLight]
  have hf : calculateLayerLight c "forest-floor"
      = max 0.5 (min 5 (1 + (2 * Real.exp (-0.5 * c.lai * (c.canopyCover / 100) * 2)
          * (calculateAutomaticLightPenetration c / 100)))) := by
    simp [calculateLayerLight]
  rw [hu, hf]
  refine ⟨⟨le_max_left _ _, max_le (by norm_num) (min_le_left _ _)⟩,
    ⟨le_max_left _ _, max_le (by norm_num) (min_le_left _ _)⟩⟩

/-- C2: for every controls value (in range or not, `canopyGaps` present or
missing), the biodiversity index lies in [20,100]. -/
theorem calculateBiodiversity_bounds (c : ForestControls) :
    20 ≤ calculateBiodiversity c ∧ calculateBiodiversity c ≤ 100 := by
  unfold calculateBiodiversity
  exact ⟨le_min (by norm_num) (le_max_left _ _), min_le_left _ _⟩

/-- C3: for every controls value, the canopy opacity is
`min 0.95 (max 0.3 (0.3 + (0.7*canopyCover/100 + 0.3*lai/10)*0.65))`, and it
lies in [0.3,0.95]. -/
theorem getLayerOpacity_canopy (c : ForestControls) :
    getLayerOpacity c "canopy"
      = min 0.95 (max 0.3 (0.3 + (0.7 * c.canopyCover / 100 + 0.3 * c.lai / 10) * 0.65)) ∧
    0.3 ≤ getLayerOpacity c "canopy" ∧ getLayerOpacity c "canopy" ≤ 0.95 := by
  have h : getLayerOpacity c "canopy"
      = min 0.95 (max 0.3 (0.3 + ((c.canopyCover / 100) * 0.7 + (c.lai / 10) * 0.3) * 0.65)) := by
    simp [getLayerOpacity]
  have e : (c.canopyCover / 100) * 0.7 + (c.lai / 10) * 0.3
      = 0.7 * c.canopyCover / 100 + 0.3 * c.lai / 10 := by ring
  rw [h, e]
  exact ⟨rfl, le_min (by norm_num) (le_max_left _ _), min_le_left _ _⟩

/-- C4: for canopyCover in [0,100] and lai in [0,10], `autoPenetration`
lies in [5,100]. -/
theorem autoPenetration_bounds (c : ForestControls)
    (hc0 : 0 ≤ c.canopyCover) (_hc1 : c.canopyCover ≤ 100)
    (hl0 : 0 ≤ c.lai) (_hl1 : c.lai ≤ 10) :
    5 ≤ autoPenetration c ∧ autoPenetration c ≤ 100 := by
  rw [autoPenetration_eq]
  have hpos := Real.exp_pos (-0.8 * (c.canopyCover / 100) * (1 + c.lai / 10))
  have harg : -0.8 * (c.canopyCover / 100) * (1 + c.lai / 10) ≤ 0 := by
    have h1 : 0 ≤ c.canopyCover / 100 := by positivity
    have h2 : 0 ≤ 1 + c.lai / 10 := by positivity
    nlinarith [mul_nonneg h1 h2]
  have hle : Real.exp (-0.8 * (c.canopyCover / 100) * (1 + c.lai / 10)) ≤ 1 :=
    Real.exp_le_one_iff.mpr harg
  constructor <;> linarith

/-- Witness of C4 at canopyCover = 50, lai = 5. -/
theorem autoPenetration_bounds_witness :
    5 ≤ autoPenetration ⟨50, 5, 80, some 45, some 5⟩ ∧
    autoPenetration ⟨50, 5, 80, some 45, some 5⟩ ≤ 100 :=
  autoPenetration_bounds ⟨50, 5, 80, some 45, some 5⟩
    (by norm_num) (by norm_num) (by norm_num) (by norm_num)

/-! ## Monotonicity -/

/-- C5: for fixed lai in [0,10] and c1 < c2 in [0,100], `autoPenetration` at
canopyCover = c2 is strictly smaller than at canopyCover = c1. -/
theorem autoPenetration_strictAnti_canopyCover (c : ForestControls) (c1 c2 : ℝ)
    (hl0 : 0 ≤ c.lai) (_hl1 : c.lai ≤ 10)
    (_h0 : 0 ≤ c1) (h12 : c1 < c2) (_h100 : c2 ≤ 100) :
    autoPenetration { c with canopyCover := c2 }
      < autoPenetration { c with canopyCover := c1 } :=
  autoPenetration_strictAnti_canopyCover_aux c c1 c2 hl0 h12

/-- Witness of C5 at lai = 5, c1 = 20, c2 = 80. -/
theorem autoPenetration_strictAnti_canopyCover_witness :
    autoPenetration { (⟨0, 5, 80, some 45, some 5⟩ : ForestControls) with canopyCover := 80 }
      < autoPenetration { (⟨0, 5, 80, some 45, some 5⟩ : ForestControls) with canopyCover := 20 } :=
  autoPenetration_strictAnti_canopyCover ⟨0, 5, 80, some 45, some 5⟩ 20 80
    (by norm_num) (by norm_num) (by norm_num) (by norm_num) (by norm_num)

/-- C6 fails as stated: at canopyCover = 0 (a valid value) the automatic
penetration is 100 whatever the lai, so raising lai from 1 to 2 does not
strictly decrease it. -/
theorem autoPenetration_lai_not_strict_at_zero_cover :
    ((0 : ℝ) ≤ 0 ∧ (0 : ℝ) ≤ 100) ∧ ((0 : ℝ) ≤ 1 ∧ (1 : ℝ) < 2 ∧ (2 : ℝ) ≤ 10) ∧
    ¬ (autoPenetration { (⟨0, 0, 80, some 45, some 5⟩ : ForestControls) with lai := 2 }
        < autoPenetration { (⟨0, 0, 80, some 45, some 5⟩ : ForestControls) with lai := 1 }) := by
  refine ⟨by norm_num, by norm_num, ?_⟩
  rw [autoPenetration_eq, autoPenetration_eq]
  norm_num

/-- C6 (amended): for fixed canopyCover in (0,100] and l1 < l2 in [0,10],
`autoPenetration` at lai = l2 is strictly smaller than at lai = l1. -/
theorem autoPenetration_strictAnti_lai (c : ForestControls) (l1 l2 : ℝ)
    (hc0 : 0 < c.canopyCover) (_hc1 : c.canopyCover ≤ 100)
    (_h0 : 0 ≤ l1) (h12 : l1 < l2) (_h10 : l2 ≤ 10) :
    autoPenetration { c with lai := l2 } < autoPenetration { c with lai := l1 } := by
  rw [autoPenetration_eq, autoPenetration_eq]
  have h1 : 0 < c.canopyCover / 100 := by positivity
  have harg : -0.8 * (c.canopyCover / 100) * (1 + l2 / 10)
      < -0.8 * (c.canopyCover / 100) * (1 + l1 / 10) := by
    have : l1 / 10 < l2 / 10 := by linarith
    nlinarith [mul_pos h1 (sub_pos.mpr this)]
  have := Real.exp_lt_exp.mpr harg
  simp only
  linarith

/-- Witness of C6 (amended) at canopyCover = 50, l1 = 1, l2 = 2. -/
theorem autoPenetration_strictAnti_lai_witness :
    autoPenetration { (⟨50, 0, 80, some 45, some 5⟩ : ForestControls) with lai := 2 }
      < autoPenetration { (⟨50, 0, 80, some 45, some 5⟩ : ForestControls) with lai := 1 } :=
  autoPenetration_strictAnti_lai ⟨50, 0, 80, some 45, some 5⟩ 1 2
    (by norm_num) (by norm_num) (by norm_num) (by norm_num) (by norm_num)

/-- C7 fails as stated: with lightPenetration = 0 (a valid value) the effective
penetration is 0 for every canopyCover, so raising canopyCover from 0 to 100
does not strictly decrease it. -/
theorem calculateAutomaticLightPenetration_not_strict_at_zero_intensity :
    ((0 : ℝ) ≤ 5 ∧ (5 : ℝ) ≤ 10) ∧ ((0 : ℝ) ≤ 90 ∧ (90 : ℝ) ≤ 180) ∧
    ((0 : ℝ) ≤ 0 ∧ (0 : ℝ) ≤ 100) ∧ ((0 : ℝ) ≤ 0 ∧ (0 : ℝ) < 100 ∧ (100 : ℝ) ≤ 100) ∧
    ¬ (calculateAutomaticLightPenetration
          { (⟨0, 5, 0, some 90, some 5⟩ : ForestControls) with canopyCover := 100 }
        < calculateAutomaticLightPenetration
          { (⟨0, 5, 0, some 90, some 5⟩ : ForestControls) with canopyCover := 0 }) := by
  refine ⟨by norm_num, by norm_num, by norm_num, by norm_num, ?_⟩
  rw [calculateAutomaticLightPenetration_eq, calculateAutomaticLightPenetration_eq]
  norm_num

/-- C7 (amended): for fixed lai in [0,10], any sunAngle (in [0,180] or missing)
and lightPenetration in (0,100], the effective penetration at canopyCover = c2
is strictly smaller than at canopyCover = c1 whenever c1 < c2 in [0,100]. -/
theorem calculateAutomaticLightPenetration_strictAnti_canopyCover
    (c : ForestControls) (c1 c2 : ℝ)
    (hl0 : 0 ≤ c.lai) (_hl1 : c.lai ≤ 10)
    (_hs : ∀ a, c.sunAngle = some a → 0 ≤ a ∧ a ≤ 180)
    (hp0 : 0 < c.lightPenetration) (_hp1 : c.lightPenetration ≤ 100)
    (_h0 : 0 ≤ c1) (h12 : c1 < c2) (_h100 : c2 ≤ 100) :
    calculateAutomaticLightPenetration { c with canopyCover := c2 }
      < calculateAutomaticLightPenetration { c with canopyCover := c1 } := by
  rw [calculateAutomaticLightPenetration_eq, calculateAutomaticLightPenetration_eq]
  have hA : angleFactor { c with canopyCover := c2 } = angleFactor c := rfl
  have hB : angleFactor { c with canopyCover := c1 } = angleFactor c := rfl
  rw [hA, hB]
  have hauto := autoPenetration_strictAnti_canopyCover_aux c c1 c2 hl0 h12
  have hf : 0 < 0.7 + 0.3 * angleFactor c := by
    have := angleFactor_nonneg c
    linarith
  have hp : 0 < c.lightPenetration / 100 := by positivity
  exact mul_lt_mul_of_pos_right (mul_lt_mul_of_pos_right hauto hp) hf

/-- Witness of C7 (amended) at lai = 5, sunAngle = 90, lightPenetration = 60,
c1 = 20, c2 = 80. -/
theorem calculateAutomaticLightPenetration_strictAnti_canopyCover_witness :
    calculateAutomaticLightPenetration
        { (⟨0, 5, 60, some 90, some 5⟩ : ForestControls) with canopyCover := 80 }
      < calculateAutomaticLightPenetration
        { (⟨0, 5, 60, some 90, some 5⟩ : ForestControls) with canopyCover := 20 } :=
  calculateAutomaticLightPenetration_strictAnti_canopyCover ⟨0, 5, 60, some 90, some 5⟩ 20 80
    (by norm_num) (by norm_num)
    (by intro a h; cases h; norm_num)
    (by norm_num) (by norm_num) (by norm_num) (by norm_num) (by norm_num)

/-! ## Sun angle -/

/-- C8: for valid canopyCover, lai and lightPenetration and every sunAngle (a
number in [0,180] or missing), the effective penetration is at most its value
with sunAngle = 90, all else equal. -/
theorem calculateAutomaticLightPenetration_le_overhead (c : ForestControls)
    (_hc0 : 0 ≤ c.canopyCover) (_hc1 : c.canopyCover ≤ 100)
    (_hl0 : 0 ≤ c.lai) (_hl1 : c.lai ≤ 10)
    (hp0 : 0 ≤ c.lightPenetration) (_hp1 : c.lightPenetration ≤ 100)
    (_hs : ∀ a, c.sunAngle = some a → 0 ≤ a ∧ a ≤ 180) :
    calculateAutomaticLightPenetration c
      ≤ calculateAutomaticLightPenetration { c with sunAngle := some 90 } := by
  rw [calculateAutomaticLightPenetration_eq, calculateAutomaticLightPenetration_eq,
    angleFactor_some c 90 (by norm_num), sin_deg_90]
  have hA : autoPenetration { c with sunAngle := some 90 } = autoPenetration c := rfl
  rw [hA]
  have hauto := autoPenetration_pos c
  have hp : 0 ≤ c.lightPenetration / 100 := by positivity
  have hf : 0.7 + 0.3 * angleFactor c ≤ 0.7 + 0.3 * |(1 : ℝ)| := by
    have := angleFactor_le_one c
    rw [abs_one]
    linarith
  exact mul_le_mul_of_nonneg_left hf (mul_nonneg hauto.le hp)

/-- Witness of C8 at canopyCover = 90, lai = 7.5, lightPenetration = 60,
sunAngle = 30. -/
theorem calculateAutomaticLightPenetration_le_overhead_witness :
    calculateAutomaticLightPenetration ⟨90, 7.5, 60, some 30, some 3⟩
      ≤ calculateAutomaticLightPenetration
          { (⟨90, 7.5, 60, some 30, some 3⟩ : ForestControls) with sunAngle := some 90 } :=
  calculateAutomaticLightPenetration_le_overhead ⟨90, 7.5, 60, some 30, some 3⟩
    (by norm_num) (by norm_num) (by norm_num) (by norm_num) (by norm_num) (by norm_num)
    (by intro a h; cases h; norm_num)

/-- In exact real arithmetic, for every sunAngle a with 0 < a < 180 the
effective penetration at sunAngle = a equals the one at sunAngle = 180 - a, all
else equal; the value at 30 equals the value at 150. -/
lemma calculateAutomaticLightPenetration_sunAngle_symm_real (c : ForestControls) :
    (∀ a : ℝ, 0 < a → a < 180 →
      calculateAutomaticLightPenetration { c with sunAngle := some a }
        = calculateAutomaticLightPenetration { c with sunAngle := some (180 - a) }) ∧
    calculateAutomaticLightPenetration { c with sunAngle := some 30 }
      = calculateAutomaticLightPenetration { c with sunAngle := some 150 } := by
  have key : ∀ a : ℝ, 0 < a → a < 180 →
      calculateAutomaticLightPenetration { c with sunAngle := some a }
        = calculateAutomaticLightPenetration { c with sunAngle := some (180 - a) } := by
    intro a h0 h180
    rw [calculateAutomaticLightPenetration_eq, calculateAutomaticLightPenetration_eq,
      angleFactor_some c a h0.ne', angleFactor_some c (180 - a) (by linarith)]
    have e : (180 - a) * Real.pi / 180 = Real.pi - a * Real.pi / 180 := by ring
    rw [e, Real.sin_pi_sub]
    rfl
  refine ⟨key, ?_⟩
  have h := key 30 (by norm_num) (by norm_num)
  have e : (180 : ℝ) - 30 = 150 := by norm_num
  rw [e] at h
  exact h

/-- C10 (code behaviour at the failing input): with canopyCover = 25, lai = 1.5,
lightPenetration = 95 and sunAngle = 0, `controls.sunAngle || 45` replaces the
falsy 0 by 45, so the result is the one for sunAngle = 45 and differs from
`autoPenetration * (lightPenetration/100) * 0.7`, the value that the other
horizon, sunAngle = 180, does give. -/
theorem calculateAutomaticLightPenetration_horizon_uses_default :
    calculateAutomaticLightPenetration ⟨25, 1.5, 95, some 0, some 15⟩
      = calculateAutomaticLightPenetration ⟨25, 1.5, 95, some 45, some 15⟩ ∧
    calculateAutomaticLightPenetration ⟨25, 1.5, 95, some 0, some 15⟩
      = autoPenetration ⟨25, 1.5, 95, some 0, some 15⟩ * (95 / 100)
          * (0.7 + 0.3 * (Real.sqrt 2 / 2)) ∧
    calculateAutomaticLightPenetration ⟨25, 1.5, 95, some 0, some 15⟩
      ≠ autoPenetration ⟨25, 1.5, 95, some 0, some 15⟩ * (95 / 100) * 0.7 ∧
    calculateAutomaticLightPenetration ⟨25, 1.5, 95, some 180, some 15⟩
      = autoPenetration ⟨25, 1.5, 95, some 0, some 15⟩ * (95 / 100) * 0.7 := by
  have hs : (0 : ℝ) < Real.sqrt 2 / 2 := by positivity
  have h0 : angleFactor ⟨25, 1.5, 95, some 0, some 15⟩ = Real.sqrt 2 / 2 := by
    have := angleFactor_zero ⟨25, 1.5, 95, some 0, some 15⟩
    rw [sin_deg_45, abs_of_pos hs] at this
    exact this
  have h45 : angleFactor ⟨25, 1.5, 95, some 45, some 15⟩ = Real.sqrt 2 / 2 := by
    have := angleFactor_some ⟨25, 1.5, 95, some 0, some 15⟩ 45 (by norm_num)
    rw [sin_deg_45, abs_of_pos hs] at this
    exact this
  have hauto := autoPenetration_pos ⟨25, 1.5, 95, some 0, some 15⟩
  have hA : autoPenetration ⟨25, 1.5, 95, some 45, some 15⟩
      = autoPenetration ⟨25, 1.5, 95, some 0, some 15⟩ := rfl
  have hval : calculateAutomaticLightPenetration ⟨25, 1.5, 95, some 0, some 15⟩
      = autoPenetration ⟨25, 1.5, 95, some 0, some 15⟩ * (95 / 100)
          * (0.7 + 0.3 * (Real.sqrt 2 / 2)) := by
    rw [calculateAutomaticLightPenetration_eq, h0]
  have h180 : angleFactor ⟨25, 1.5, 95, some 180, some 15⟩ = 0 := by
    have := angleFactor_some ⟨25, 1.5, 95, some 0, some 15⟩ 180 (by norm_num)
    have e : (180 : ℝ) * Real.pi / 180 = Real.pi := by ring
    rw [e, Real.sin_pi, abs_zero] at this
    exact this
  have hB : autoPenetration ⟨25, 1.5, 95, some 180, some 15⟩
      = autoPenetration ⟨25, 1.5, 95, some 0, some 15⟩ := rfl
  refine ⟨?_, hval, ?_, ?_⟩
  · rw [hval, calculateAutomaticLightPenetration_eq, h45, hA]
  · rw [hval]
    intro h
    have hpos : 0 < autoPenetration ⟨25, 1.5, 95, some 0, some 15⟩ * (95 / 100)
        * (0.3 * (Real.sqrt 2 / 2)) := by positivity
    nlinarith
  · rw [calculateAutomaticLightPenetration_eq, h180, hB]
    norm_num

/-! ## Default sun angle -/

/-- C11: for every controls value whose sunAngle is absent,
`calculateAutomaticLightPenetration` and `calculateLayerLight` (for every layer
id) return the same values as for the same controls with sunAngle = 45. -/
theorem sunAngle_omitted_same_as_45 (c : ForestControls) (h : c.sunAngle = none) :
    calculateAutomaticLightPenetration c
      = calculateAutomaticLightPenetration { c with sunAngle := some 45 } ∧
    ∀ layerId : String,
      calculateLayerLight c layerId
        = calculateLayerLight { c with sunAngle := some 45 } layerId := by
  have hang : angleFactor c = angleFactor { c with sunAngle := some 45 } := by
    simp [angleFactor, orDefault, h]
  have hcalc : calculateAutomaticLightPenetration c
      = calculateAutomaticLightPenetration { c with sunAngle := some 45 } := by
    rw [calculateAutomaticLightPenetration_eq, calculateAutomaticLightPenetration_eq, ← hang]
    rfl
  refine ⟨hcalc, ?_⟩
  intro layerId
  unfold calculateLayerLight
  rw [← hcalc]

/-- Witness of C11 at the wet-evergreen defaults with the sunAngle removed. -/
theorem sunAngle_omitted_same_as_45_witness :
    calculateAutomaticLightPenetration ⟨90, 7.5, 60, none, some 3⟩
      = calculateAutomaticLightPenetration
          { (⟨90, 7.5, 60, none, some 3⟩ : ForestControls) with sunAngle := some 45 } ∧
    ∀ layerId : String,
      calculateLayerLight ⟨90, 7.5, 60, none, some 3⟩ layerId
        = calculateLayerLight
            { (⟨90, 7.5, 60, none, some 3⟩ : ForestControls) with sunAngle := some 45 } layerId :=
  sunAngle_omitted_same_as_45 ⟨90, 7.5, 60, none, some 3⟩ rfl

/-! ## Preset resolution -/

lemma mem_indianForestPresets (p : ForestPreset) :
    p ∈ indianForestPresets ↔
      p = tropicalWetEvergreen ∨ p = tropicalSemiEvergreen ∨ p = tropicalMoistDeciduous ∨
      p = tropicalDryDeciduous ∨ p = tropicalThorn ∨ p = montane := by
  simp [indianForestPresets]

lemma getPresetById_of_mem (p : ForestPreset) (hp : p ∈ indianForestPresets) :
    getPresetById p.id = some p := by
  rw [mem_indianForestPresets] at hp
  rcases hp with rfl | rfl | rfl | rfl | rfl | rfl <;>
    simp [getPresetById, indianForestPresets, List.find?, tropicalWetEvergreen,
      tropicalSemiEvergreen, tropicalMoistDeciduous, tropicalDryDeciduous, tropicalThorn,
      montane]

lemma getPresetById_eq_none_iff (id : String) :
    getPresetById id = none ↔ ∀ p ∈ indianForestPresets, p.id ≠ id := by
  simp [getPresetById, List.find?_eq_none]

lemma indianForestPresets_ids :
    indianForestPresets.map (fun p => p.id)
      = ["tropical-wet-evergreen", "tropical-semi-evergreen", "tropical-moist-deciduous",
          "tropical-dry-deciduous", "tropical-thorn", "montane"] := rfl

/-- C12: the six ids of `indianForestPresets` are pairwise distinct, and for
every entry p of the table `getPresetById p.id` returns p itself. -/
theorem getPresetById_roundtrip :
    indianForestPresets.length = 6 ∧
    (indianForestPresets.map (fun p => p.id)).Nodup ∧
    ∀ p ∈ indianForestPresets, getPresetById p.id = some p := by
  refine ⟨rfl, ?_, getPresetById_of_mem⟩
  rw [indianForestPresets_ids]
  decide

/-- Witness of C12 at the thorn-forest entry. -/
theorem getPresetById_roundtrip_witness :
    tropicalThorn ∈ indianForestPresets ∧ getPresetById tropicalThorn.id = some tropicalThorn :=
  ⟨by simp [indianForestPresets],
    getPresetById_roundtrip.2.2 tropicalThorn (by simp [indianForestPresets])⟩

lemma exists_preset_id_iff (id : String) :
    (∃ p ∈ indianForestPresets, p.id = id) ↔
      id ∈ ["tropical-wet-evergreen", "tropical-semi-evergreen", "tropical-moist-deciduous",
        "tropical-dry-deciduous", "tropical-thorn", "montane"] := by
  rw [← indianForestPresets_ids]
  simp [List.mem_map]

/-- C13: `getPresetById` is total; it returns `none` (JS `null`) for every
identifier that is not the id of a table entry, in particular for
"nonexistent", and it returns a record exactly when the identifier is one of
the six ids. -/
theorem getPresetById_none_of_unknown :
    (∀ id : String, (¬ ∃ p ∈ indianForestPresets, p.id = id) → getPresetById id = none) ∧
    getPresetById "nonexistent" = none ∧
    (∀ id : String, (∃ p, getPresetById id = some p) ↔
      id ∈ ["tropical-wet-evergreen", "tropical-semi-evergreen", "tropical-moist-deciduous",
        "tropical-dry-deciduous", "tropical-thorn", "montane"]) := by
  have h1 : ∀ id : String,
      (¬ ∃ p ∈ indianForestPresets, p.id = id) → getPresetById id = none := by
    intro id h
    rw [getPresetById_eq_none_iff]
    intro p hp hid
    exact h ⟨p, hp, hid⟩
  refine ⟨h1, ?_, ?_⟩
  · apply h1
    rw [exists_preset_id_iff]
    decide
  · intro id
    rw [← exists_preset_id_iff]
    constructor
    · rintro ⟨p, hp⟩
      by_contra hne
      rw [h1 id hne] at hp
      cases hp
    · rintro ⟨p, hp, rfl⟩
      exact ⟨p, getPresetById_of_mem p hp⟩

/-- Witness of C13 at the identifier "nonexistent". -/
theorem getPresetById_none_of_unknown_witness :
    (¬ ∃ p ∈ indianForestPresets, p.id = "nonexistent") ∧
    getPresetById "nonexistent" = none :=
  ⟨by rw [exists_preset_id_iff]; decide,
    getPresetById_none_of_unknown.1 "nonexistent" (by rw [exists_preset_id_iff]; decide)⟩

/-- C14: for every prior state and every table entry p, after
`handlePresetChange p.id` the controls are exactly the five defaults stored in
p, whatever the prior controls were, and `selectedPreset` is `p.id`. -/
theorem handlePresetChange_overwrites (s : AppState) (p : ForestPreset)
    (hp : p ∈ indianForestPresets) :
    (handlePresetChange s p.id).controls
      = { canopyCover := p.canopyCover, lai := p.lai, lightPenetration := p.lightPenetration,
          sunAngle := some p.sunAngle, canopyGaps := some p.canopyGaps } ∧
    (handlePresetChange s p.id).selectedPreset = p.id := by
  simp [handlePresetChange, getPresetById_of_mem p hp]

/-- Witness of C14: from a state whose controls are all zero, selecting the
montane preset. -/
theorem handlePresetChange_overwrites_witness :
    (handlePresetChange
        ⟨none, false, false, false, none, [], none, "tropical-thorn", ⟨0, 0, 0, none, none⟩⟩
        montane.id).controls
      = { canopyCover := montane.canopyCover, lai := montane.lai,
          lightPenetration := montane.lightPenetration,
          sunAngle := some montane.sunAngle, canopyGaps := some montane.canopyGaps } ∧
    (handlePresetChange
        ⟨none, false, false, false, none, [], none, "tropical-thorn", ⟨0, 0, 0, none, none⟩⟩
        montane.id).selectedPreset = montane.id :=
  handlePresetChange_overwrites _ montane (by simp [indianForestPresets])

/-! ## Dense-evergreen scenario -/

lemma exp_neg_063_bounds :
    (0.5325 : ℝ) < Real.exp (-(63 / 100)) ∧ Real.exp (-(63 / 100)) < 0.5326 := by
  have habs : |(-(63 / 100) : ℝ)| = 63 / 100 := by
    rw [abs_neg, abs_of_pos (by norm_num)]
  have h := Real.exp_bound (x := -(63 / 100)) (by rw [habs]; norm_num) (n := 8) (by norm_num)
  rw [habs] at h
  simp only [Finset.sum_range_succ, Finset.sum_range_zero, Nat.factorial] at h
  rw [abs_le] at h
  norm_num at h
  constructor <;> norm_num <;> linarith [h.1, h.2]

lemma exp_neg_126_bounds :
    (0.2835 : ℝ) < Real.exp (-(126 / 100)) ∧ Real.exp (-(126 / 100)) < 0.28367 := by
  have e : (-(126 / 100) : ℝ) = -(63 / 100) + -(63 / 100) := by norm_num
  rw [e, Real.exp_add]
  obtain ⟨h1, h2⟩ := exp_neg_063_bounds
  constructor <;> nlinarith

lemma autoPenetration_denseEvergreen :
    autoPenetration ⟨90, 7.5, 60, some 90, some 3⟩ = 5 + Real.exp (-(126 / 100)) * 95 := by
  rw [autoPenetration_eq]
  norm_num

lemma calculateAutomaticLightPenetration_denseEvergreen :
    calculateAutomaticLightPenetration ⟨90, 7.5, 60, some 90, some 3⟩
      = (5 + Real.exp (-(126 / 100)) * 95) * (60 / 100) := by
  have ha := angleFactor_some ⟨90, 7.5, 60, some 90, some 3⟩ 90 (by norm_num)
  rw [sin_deg_90, abs_one] at ha
  have ha2 : angleFactor ⟨90, 7.5, 60, some 90, some 3⟩ = 1 := ha
  rw [calculateAutomaticLightPenetration_eq, ha2, autoPenetration_denseEvergreen]
  norm_num

/-- C15 fails as stated: for canopyCover = 90, lai = 7.5, lightPenetration = 60,
sunAngle = 90, canopyGaps = 3, `autoPenetration` is not 10.9 to one decimal
place and the effective penetration is not 6.5 to one decimal place. -/
theorem denseEvergreen_penetration_not_as_stated :
    ¬ (|autoPenetration ⟨90, 7.5, 60, some 90, some 3⟩ - 10.9| ≤ 0.05) ∧
    ¬ (|calculateAutomaticLightPenetration ⟨90, 7.5, 60, some 90, some 3⟩ - 6.5| ≤ 0.05) := by
  rw [autoPenetration_denseEvergreen, calculateAutomaticLightPenetration_denseEvergreen]
  obtain ⟨h1, _⟩ := exp_neg_126_bounds
  constructor
  · intro h
    rw [abs_le] at h
    norm_num at h
    linarith [h.2]
  · intro h
    rw [abs_le] at h
    norm_num at h
    linarith [h.2]

/-- C15 (amended): for canopyCover = 90, lai = 7.5, lightPenetration = 60,
sunAngle = 90, canopyGaps = 3, `autoPenetration` is `5 + 95*exp(-0.8*0.9*1.75)`,
which is 31.9 to one decimal place, and the effective penetration is 19.2 to one
decimal place. -/
theorem denseEvergreen_penetration :
    autoPenetration ⟨90, 7.5, 60, some 90, some 3⟩
      = 5 + 95 * Real.exp (-0.8 * 0.9 * 1.75) ∧
    |autoPenetration ⟨90, 7.5, 60, some 90, some 3⟩ - 31.9| ≤ 0.05 ∧
    |calculateAutomaticLightPenetration ⟨90, 7.5, 60, some 90, some 3⟩ - 19.2| ≤ 0.05 := by
  obtain ⟨h1, h2⟩ := exp_neg_126_bounds
  refine ⟨?_, ?_, ?_⟩
  · rw [autoPenetration_eq]
    norm_num
    ring
  · rw [autoPenetration_denseEvergreen, abs_le]
    constructor <;> norm_num <;> linarith
  · rw [calculateAutomaticLightPenetration_denseEvergreen, abs_le]
    constructor <;> norm_num <;> linarith

lemma calculateBiodiversity_eq (c : ForestControls) :
    calculateBiodiversity c
      = min 100 (max 20 ((structureFactor c * 50)
          + (min 20 (orDefault c.canopyGaps 0) / 20 * 30) + 20)) := rfl

lemma calculateBiodiversity_denseEvergreen :
    calculateBiodiversity ⟨90, 7.5, 60, some 90, some 3⟩ = 53.75 := by
  simp only [calculateBiodiversity_eq, structureFactor, orDefault]
  norm_num

/-- C16 fails as stated: for canopyCover = 90, lai = 7.5, canopyGaps = 3 the
value returned by `calculateBiodiversity` is not near 73.25 (it is more than 19
away from it). -/
theorem denseEvergreen_biodiversity_not_as_stated :
    calculateBiodiversity ⟨90, 7.5, 60, some 90, some 3⟩ ≠ 73.25 ∧
    19 < |calculateBiodiversity ⟨90, 7.5, 60, some 90, some 3⟩ - 73.25| := by
  rw [calculateBiodiversity_denseEvergreen]
  constructor
  · norm_num
  · rw [lt_abs]
    right
    norm_num

/-- C16 (amended): for canopyCover = 90, lai = 7.5, canopyGaps = 3, the
structure factor is 0.585 and `calculateBiodiversity` returns the score
`0.585*50 + 0.15*30 + 20`, which is 53.75. -/
theorem denseEvergreen_biodiversity :
    structureFactor ⟨90, 7.5, 60, some 90, some 3⟩ = 0.585 ∧
    calculateBiodiversity ⟨90, 7.5, 60, some 90, some 3⟩ = 0.585 * 50 + 0.15 * 30 + 20 ∧
    calculateBiodiversity ⟨90, 7.5, 60, some 90, some 3⟩ = 53.75 := by
  refine ⟨?_, ?_, calculateBiodiversity_denseEvergreen⟩
  · simp only [structureFactor]
    norm_num
  · rw [calculateBiodiversity_denseEvergreen]
    norm_num

/-! ## Unclamped values under valid inputs -/

lemma autoPenetration_le_hundred (c : ForestControls)
    (hc0 : 0 ≤ c.canopyCover) (hl0 : 0 ≤ c.lai) : autoPenetration c ≤ 100 := by
  rw [autoPenetration_eq]
  have harg : -0.8 * (c.canopyCover / 100) * (1 + c.lai / 10) ≤ 0 := by
    have h1 : 0 ≤ c.canopyCover / 100 := by positivity
    have h2 : 0 ≤ 1 + c.lai / 10 := by positivity
    nlinarith [mul_nonneg h1 h2]
  have hle := Real.exp_le_one_iff.mpr harg
  linarith

lemma calculateAutomaticLightPenetration_bounds_aux (c : ForestControls)
    (hc0 : 0 ≤ c.canopyCover) (hl0 : 0 ≤ c.lai)
    (hp0 : 0 ≤ c.lightPenetration) (hp1 : c.lightPenetration ≤ 100) :
    0 ≤ calculateAutomaticLightPenetration c ∧ calculateAutomaticLightPenetration c ≤ 100 := by
  rw [calculateAutomaticLightPenetration_eq]
  have ha0 := autoPenetration_pos c
  have ha1 := autoPenetration_le_hundred c hc0 hl0
  have hf0 := angleFactor_nonneg c
  have hf1 := angleFactor_le_one c
  have hq0 : 0 ≤ c.lightPenetration / 100 := by positivity
  have hq1 : c.lightPenetration / 100 ≤ 1 := by linarith
  have hg0 : 0 ≤ 0.7 + 0.3 * angleFactor c := by linarith
  have hg1 : 0.7 + 0.3 * angleFactor c ≤ 1 := by linarith
  have hm0 : 0 ≤ autoPenetration c * (c.lightPenetration / 100) := mul_nonneg ha0.le hq0
  have hm1 : autoPenetration c * (c.lightPenetration / 100) ≤ 100 := by
    calc autoPenetration c * (c.lightPenetration / 100)
        ≤ 100 * 1 := mul_le_mul ha1 hq1 hq0 (by norm_num)
      _ = 100 := by norm_num
  constructor
  · exact mul_nonneg hm0 hg0
  · calc autoPenetration c * (c.lightPenetration / 100) * (0.7 + 0.3 * angleFactor c)
        ≤ 100 * 1 := mul_le_mul hm1 hg1 hg0 (by norm_num)
      _ = 100 := by norm_num

/-- C17: for every valid controls value (canopyCover in [0,100], lai in [0,10],
lightPenetration in [0,100], sunAngle in [0,180] or missing) the effective
penetration returned by `calculateAutomaticLightPenetration` lies in [0,100]. -/
theorem calculateAutomaticLightPenetration_nominal_range (c : ForestControls)
    (hc0 : 0 ≤ c.canopyCover) (_hc1 : c.canopyCover ≤ 100)
    (hl0 : 0 ≤ c.lai) (_hl1 : c.lai ≤ 10)
    (hp0 : 0 ≤ c.lightPenetration) (hp1 : c.lightPenetration ≤ 100)
    (_hs : ∀ a, c.sunAngle = some a → 0 ≤ a ∧ a ≤ 180) :
    0 ≤ calculateAutomaticLightPenetration c ∧ calculateAutomaticLightPenetration c ≤ 100 :=
  calculateAutomaticLightPenetration_bounds_aux c hc0 hl0 hp0 hp1

/-- Witness of C17 at the dry-deciduous defaults. -/
theorem calculateAutomaticLightPenetration_nominal_range_witness :
    0 ≤ calculateAutomaticLightPenetration ⟨45, 3.5, 80, some 60, some 12⟩ ∧
    calculateAutomaticLightPenetration ⟨45, 3.5, 80, some 60, some 12⟩ ≤ 100 :=
  calculateAutomaticLightPenetration_nominal_range ⟨45, 3.5, 80, some 60, some 12⟩
    (by norm_num) (by norm_num) (by norm_num) (by norm_num) (by norm_num) (by norm_num)
    (by intro a h; cases h; norm_num)

/-- C18: for every valid controls value, the emergent and the canopy light
levels both lie in [0,100]. -/
theorem calculateLayerLight_upper_layers_bounds (c : ForestControls)
    (hc0 : 0 ≤ c.canopyCover) (hc1 : c.canopyCover ≤ 100)
    (hl0 : 0 ≤ c.lai) (_hl1 : c.lai ≤ 10)
    (hp0 : 0 ≤ c.lightPenetration) (hp1 : c.lightPenetration ≤ 100)
    (_hs : ∀ a, c.sunAngle = some a → 0 ≤ a ∧ a ≤ 180) :
    (0 ≤ calculateLayerLight c "emergent" ∧ calculateLayerLight c "emergent" ≤ 100) ∧
    (0 ≤ calculateLayerLight c "canopy" ∧ calculateLayerLight c "canopy" ≤ 100) := by
  obtain ⟨he0, he1⟩ := calculateAutomaticLightPenetration_bounds_aux c hc0 hl0 hp0 hp1
  have hq0 : 0 ≤ calculateAutomaticLightPenetration c / 100 := by positivity
  have hq1 : calculateAutomaticLightPenetration c / 100 ≤ 1 := by linarith
  have hem : calculateLayerLight c "emergent"
      = max 90 (100 - (c.lai * 0.8)) * (calculateAutomaticLightPenetration c / 100) := by
    simp [calculateLayerLight]
  have hca : calculateLayerLight c "canopy"
      = (70 + (30 * Real.exp (-0.5 * c.lai * (c.canopyCover / 100))))
          * (0.7 + 0.3 * (1 - c.canopyCover / 100))
          * (calculateAutomaticLightPenetration c / 100) := by
    simp [calculateLayerLight]
  have hm0 : (0 : ℝ) ≤ max 90 (100 - (c.lai * 0.8)) :=
    le_trans (by norm_num) (le_max_left _ _)
  have hm1 : max 90 (100 - (c.lai * 0.8)) ≤ 100 := max_le (by norm_num) (by linarith)
  have hd0 : 0 ≤ c.canopyCover / 100 := by positivity
  have hd1 : c.canopyCover / 100 ≤ 1 := by linarith
  have harg : -0.5 * c.lai * (c.canopyCover / 100) ≤ 0 := by
    nlinarith [mul_nonneg hl0 hd0]
  have hx0 := Real.exp_pos (-0.5 * c.lai * (c.canopyCover / 100))
  have hx1 := Real.exp_le_one_iff.mpr harg
  have ha0 : 0 ≤ 70 + (30 * Real.exp (-0.5 * c.lai * (c.canopyCover / 100))) := by linarith
  have ha1 : 70 + (30 * Real.exp (-0.5 * c.lai * (c.canopyCover / 100))) ≤ 100 := by linarith
  have hb0 : 0 ≤ 0.7 + 0.3 * (1 - c.canopyCover / 100) := by linarith
  have hb1 : 0.7 + 0.3 * (1 - c.canopyCover / 100) ≤ 1 := by linarith
  have hab0 := mul_nonneg ha0 hb0
  have hab1 : (70 + (30 * Real.exp (-0.5 * c.lai * (c.canopyCover / 100))))
      * (0.7 + 0.3 * (1 - c.canopyCover / 100)) ≤ 100 := by
    calc (70 + (30 * Real.exp (-0.5 * c.lai * (c.canopyCover / 100))))
          * (0.7 + 0.3 * (1 - c.canopyCover / 100))
        ≤ 100 * 1 := mul_le_mul ha1 hb1 hb0 (by norm_num)
      _ = 100 := by norm_num
  rw [hem, hca]
  refine ⟨⟨mul_nonneg hm0 hq0, ?_⟩, ⟨mul_nonneg hab0 hq0, ?_⟩⟩
  · calc max 90 (100 - (c.lai * 0.8)) * (calculateAutomaticLightPenetration c / 100)
        ≤ 100 * 1 := mul_le_mul hm1 hq1 hq0 (by norm_num)
      _ = 100 := by norm_num
  · calc (70 + (30 * Real.exp (-0.5 * c.lai * (c.canopyCover / 100))))
          * (0.7 + 0.3 * (1 - c.canopyCover / 100))
          * (calculateAutomaticLightPenetration c / 100)
        ≤ 100 * 1 := mul_le_mul hab1 hq1 hq0 (by norm_num)
      _ = 100 := by norm_num

/-- Witness of C18 at the montane defaults. -/
theorem calculateLayerLight_upper_layers_bounds_witness :
    (0 ≤ calculateLayerLight ⟨70, 5.5, 65, some 50, some 6⟩ "emergent" ∧
      calculateLayerLight ⟨70, 5.5, 65, some 50, some 6⟩ "emergent" ≤ 100) ∧
    (0 ≤ calculateLayerLight ⟨70, 5.5, 65, some 50, some 6⟩ "canopy" ∧
      calculateLayerLight ⟨70, 5.5, 65, some 50, some 6⟩ "canopy" ≤ 100) :=
  calculateLayerLight_upper_layers_bounds ⟨70, 5.5, 65, some 50, some 6⟩
    (by norm_num) (by norm_num) (by norm_num) (by norm_num) (by norm_num) (by norm_num)
    (by intro a h; cases h; norm_num)

/-! ## Wind resistance -/

lemma windResistance_eq (c : ForestControls) :
    windResistance c = 1 + (c.canopyCover / 100) * 0.5 + (c.lai / 10) * 0.3 := rfl

lemma windForces_lt (c d : ForestControls) (hc : 0 < windResistance c)
    (h : windResistance c < windResistance d) :
    emergentWindForce d < emergentWindForce c ∧
    canopyWindForce d < canopyWindForce c ∧
    understoryWindForce d < understoryWindForce c := by
  unfold emergentWindForce canopyWindForce understoryWindForce
  exact ⟨div_lt_div_of_pos_left (by norm_num) hc h,
    div_lt_div_of_pos_left (by norm_num) hc h,
    div_lt_div_of_pos_left (by norm_num) hc h⟩

/-- C19: for valid canopyCover and lai, `windResistance` is at least 1; raising
canopyCover (within [0,100]) or lai (within [0,10]) strictly raises it and
strictly lowers each of the three wind forces `k / windResistance`. -/
theorem windResistance_dampens (c : ForestControls)
    (hc0 : 0 ≤ c.canopyCover) (_hc1 : c.canopyCover ≤ 100)
    (hl0 : 0 ≤ c.lai) (_hl1 : c.lai ≤ 10) :
    1 ≤ windResistance c ∧
    (∀ c2 : ℝ, c.canopyCover < c2 → c2 ≤ 100 →
      windResistance c < windResistance { c with canopyCover := c2 } ∧
      emergentWindForce { c with canopyCover := c2 } < emergentWindForce c ∧
      canopyWindForce { c with canopyCover := c2 } < canopyWindForce c ∧
      understoryWindForce { c with canopyCover := c2 } < understoryWindForce c) ∧
    (∀ l2 : ℝ, c.lai < l2 → l2 ≤ 10 →
      windResistance c < windResistance { c with lai := l2 } ∧
      emergentWindForce { c with lai := l2 } < emergentWindForce c ∧
      canopyWindForce { c with lai := l2 } < canopyWindForce c ∧
      understoryWindForce { c with lai := l2 } < understoryWindForce c) := by
  have h1 : 1 ≤ windResistance c := by
    rw [windResistance_eq]
    have a : 0 ≤ (c.canopyCover / 100) * 0.5 := by positivity
    have b : 0 ≤ (c.lai / 10) * 0.3 := by positivity
    linarith
  have hpos : 0 < windResistance c := by linarith
  refine ⟨h1, ?_, ?_⟩
  · intro c2 h12 _
    have hw : windResistance c < windResistance { c with canopyCover := c2 } := by
      rw [windResistance_eq, windResistance_eq]
      simp only
      linarith
    exact ⟨hw, windForces_lt c _ hpos hw⟩
  · intro l2 h12 _
    have hw : windResistance c < windResistance { c with lai := l2 } := by
      rw [windResistance_eq, windResistance_eq]
      simp only
      linarith
    exact ⟨hw, windForces_lt c _ hpos hw⟩

/-- Witness of C19 at the semi-evergreen defaults: the resistance is at least 1
and raising canopyCover from 75 to 80 lowers the emergent wind force. -/
theorem windResistance_dampens_witness :
    1 ≤ windResistance ⟨75, 6.0, 65, some 70, some 5⟩ ∧
    emergentWindForce { (⟨75, 6.0, 65, some 70, some 5⟩ : ForestControls) with canopyCover := 80 }
      < emergentWindForce ⟨75, 6.0, 65, some 70, some 5⟩ :=
  ⟨(windResistance_dampens ⟨75, 6.0, 65, some 70, some 5⟩
      (by norm_num) (by norm_num) (by norm_num) (by norm_num)).1,
    ((windResistance_dampens ⟨75, 6.0, 65, some 70, some 5⟩
      (by norm_num) (by norm_num) (by norm_num) (by norm_num)).2.1 80
        (by norm_num) (by norm_num)).2.1⟩

/-! ## Canopy gaps -/

lemma orDefault_some_zero (g : ℝ) : orDefault (some g) 0 = g := by
  show (if g = 0 then 0 else g) = g
  split_ifs with h
  · exact h.symm
  · rfl

lemma calculateBiodiversity_gaps (c : ForestControls) (g : ℝ) :
    calculateBiodiversity { c with canopyGaps := some g }
      = min 100 (max 20 ((structureFactor c * 50) + (min 20 g / 20 * 30) + 20)) := by
  rw [calculateBiodiversity_eq]
  simp only [orDefault_some_zero]
  rfl

/-- C20: with canopyCover and lai fixed, `calculateBiodiversity` is
non-decreasing in canopyGaps, and every canopyGaps value of 20 or more (999 for
one) gives the same index as canopyGaps = 20. -/
theorem calculateBiodiversity_gaps_monotone_capped (c : ForestControls) :
    (∀ g1 g2 : ℝ, g1 ≤ g2 →
      calculateBiodiversity { c with canopyGaps := some g1 }
        ≤ calculateBiodiversity { c with canopyGaps := some g2 }) ∧
    (∀ g : ℝ, 20 ≤ g →
      calculateBiodiversity { c with canopyGaps := some g }
        = calculateBiodiversity { c with canopyGaps := some 20 }) ∧
    calculateBiodiversity { c with canopyGaps := some 999 }
      = calculateBiodiversity { c with canopyGaps := some 20 } := by
  have hcap : ∀ g : ℝ, 20 ≤ g →
      calculateBiodiversity { c with canopyGaps := some g }
        = calculateBiodiversity { c with canopyGaps := some 20 } := by
    intro g hg
    rw [calculateBiodiversity_gaps, calculateBiodiversity_gaps, min_eq_left hg,
      min_eq_left (le_refl (20 : ℝ))]
  refine ⟨?_, hcap, hcap 999 (by norm_num)⟩
  intro g1 g2 h
  rw [calculateBiodiversity_gaps, calculateBiodiversity_gaps]
  have hmin : min 20 g1 ≤ min 20 g2 := min_le_min le_rfl h
  have hscore : (structureFactor c * 50) + (min 20 g1 / 20 * 30) + 20
      ≤ (structureFactor c * 50) + (min 20 g2 / 20 * 30) + 20 := by linarith
  exact min_le_min le_rfl (max_le_max le_rfl hscore)

/-- Witness of C20 at the wet-evergreen defaults: canopyGaps 3 against 8, and
25 against 20. -/
theorem calculateBiodiversity_gaps_monotone_capped_witness :
    calculateBiodiversity { (⟨90, 7.5, 60, some 75, some 3⟩ : ForestControls) with
        canopyGaps := some 3 }
      ≤ calculateBiodiversity { (⟨90, 7.5, 60, some 75, some 3⟩ : ForestControls) with
        canopyGaps := some 8 } ∧
    calculateBiodiversity { (⟨90, 7.5, 60, some 75, some 3⟩ : ForestControls) with
        canopyGaps := some 25 }
      = calculateBiodiversity { (⟨90, 7.5, 60, some 75, some 3⟩ : ForestControls) with
        canopyGaps := some 20 } :=
  ⟨(calculateBiodiversity_gaps_monotone_capped ⟨90, 7.5, 60, some 75, some 3⟩).1 3 8
      (by norm_num),
    (calculateBiodiversity_gaps_monotone_capped ⟨90, 7.5, 60, some 75, some 3⟩).2.1 25
      (by norm_num)⟩

/-! ## Ranges of the preset defaults -/

/-- The controls that `handlePresetChange` and the initial state build from a
preset. -/
lemma preset_controls_inRange (p : ForestPreset) (hp : p ∈ indianForestPresets) :
    ForestControls.InRange
      { canopyCover := p.canopyCover, lai := p.lai, lightPenetration := p.lightPenetration,
        sunAngle := some p.sunAngle, canopyGaps := some p.canopyGaps } := by
  rw [mem_indianForestPresets] at hp
  unfold ForestControls.InRange
  rcases hp with rfl | rfl | rfl | rfl | rfl | rfl
  · refine ⟨?_, ?_, ?_, ⟨75, rfl, ?_, ?_⟩, ⟨3, ?_, ?_, ?_⟩⟩ <;> norm_num [tropicalWetEvergreen]
  · refine ⟨?_, ?_, ?_, ⟨70, rfl, ?_, ?_⟩, ⟨5, ?_, ?_, ?_⟩⟩ <;> norm_num [tropicalSemiEvergreen]
  · refine ⟨?_, ?_, ?_, ⟨65, rfl, ?_, ?_⟩, ⟨8, ?_, ?_, ?_⟩⟩ <;>
      norm_num [tropicalMoistDeciduous]
  · refine ⟨?_, ?_, ?_, ⟨60, rfl, ?_, ?_⟩, ⟨12, ?_, ?_, ?_⟩⟩ <;>
      norm_num [tropicalDryDeciduous]
  · refine ⟨?_, ?_, ?_, ⟨55, rfl, ?_, ?_⟩, ⟨15, ?_, ?_, ?_⟩⟩ <;> norm_num [tropicalThorn]
  · refine ⟨?_, ?_, ?_, ⟨50, rfl, ?_, ?_⟩, ⟨6, ?_, ?_, ?_⟩⟩ <;> norm_num [montane]

lemma handlePresetChange_of_none (s : AppState) (id : String)
    (h : getPresetById id = none) : handlePresetChange s id = s := by
  simp [handlePresetChange, h]

/-- C21: the preset table has exactly six entries; the five stored defaults of
every entry are in the documented ranges (canopyGaps an integer in [0,20]); so
the initial controls are in range, and so are the controls after any
`handlePresetChange` from a state whose controls are in range. -/
theorem presets_within_ranges :
    indianForestPresets.length = 6 ∧
    (∀ p ∈ indianForestPresets,
      (0 ≤ p.canopyCover ∧ p.canopyCover ≤ 100) ∧ (0 ≤ p.lai ∧ p.lai ≤ 10) ∧
      (0 ≤ p.lightPenetration ∧ p.lightPenetration ≤ 100) ∧
      (0 ≤ p.sunAngle ∧ p.sunAngle ≤ 180) ∧
      (∃ n : ℤ, p.canopyGaps = (n : ℝ) ∧ 0 ≤ n ∧ n ≤ 20)) ∧
    initialControls.InRange ∧
    (∀ (s : AppState) (id : String),
      s.controls.InRange → (handlePresetChange s id).controls.InRange) := by
  refine ⟨rfl, ?_, ?_, ?_⟩
  · intro p hp
    obtain ⟨h1, h2, h3, ⟨a, ha, ha0, ha1⟩, ⟨n, hn, hn0, hn1⟩⟩ := preset_controls_inRange p hp
    simp only [Option.some.injEq] at ha hn
    exact ⟨h1, h2, h3, ⟨by rw [ha]; exact ha0, by rw [ha]; exact ha1⟩, ⟨n, hn, hn0, hn1⟩⟩
  · exact preset_controls_inRange getDefaultPreset (by simp [getDefaultPreset, indianForestPresets])
  · intro s id hs
    cases hg : getPresetById id with
    | none =>
      rw [handlePresetChange_of_none s id hg]
      exact hs
    | some p =>
      have hp : p ∈ indianForestPresets := by
        unfold getPresetById at hg
        exact List.mem_of_find?_eq_some hg
      have : (handlePresetChange s id).controls
          = { canopyCover := p.canopyCover, lai := p.lai,
              lightPenetration := p.lightPenetration,
              sunAngle := some p.sunAngle, canopyGaps := some p.canopyGaps } := by
        simp [handlePresetChange, hg]
      rw [this]
      exact preset_controls_inRange p hp

/-- Witness of C21: from the initial state, selecting the thorn-forest preset
keeps the controls in range. -/
theorem presets_within_ranges_witness :
    (handlePresetChange
      ⟨none, false, false, false, none, [], none, "tropical-wet-evergreen", initialControls⟩
      "tropical-thorn").controls.InRange :=
  presets_within_ranges.2.2.2
    ⟨none, false, false, false, none, [], none, "tropical-wet-evergreen", initialControls⟩
    "tropical-thorn" presets_within_ranges.2.2.1

/-! ## The two copies of the light model -/

lemma ModelControls.effectivePenetration_eq (c : ForestControls) :
    ModelControls.effectivePenetration c = calculateAutomaticLightPenetration c / 100 := rfl

/-- C22: for every controls value, the four light levels computed in the Live
Conditions panel of ModelControls equal `calculateLayerLight` of RainforestSVG
for the emergent, canopy, understory and forest-floor layers. -/
theorem panel_light_eq_calculateLayerLight (c : ForestControls) :
    ModelControls.emergentLight c = calculateLayerLight c "emergent" ∧
    ModelControls.canopyLight c = calculateLayerLight c "canopy" ∧
    ModelControls.understoryLight c = calculateLayerLight c "understory" ∧
    ModelControls.floorLight c = calculateLayerLight c "forest-floor" := by
  refine ⟨?_, ?_, ?_, ?_⟩
  · simp [ModelControls.emergentLight, ModelControls.effectivePenetration_eq,
      calculateLayerLight]
  · simp [ModelControls.canopyLight, ModelControls.effectivePenetration_eq,
      calculateLayerLight]
  · simp [ModelControls.understoryLight, ModelControls.effectivePenetration_eq,
      calculateLayerLight]
  · simp [ModelControls.floorLight, ModelControls.effectivePenetration_eq,
      calculateLayerLight]

/-! ## Unknown preset identifier -/

/-- C25: for every state and every identifier that is not the id of a table
entry, `handlePresetChange` returns the state unchanged; in particular the
controls and `selectedPreset` are the old ones. -/
theorem handlePresetChange_unknown_id (s : AppState) (id : String)
    (h : ¬ ∃ p ∈ indianForestPresets, p.id = id) :
    handlePresetChange s id = s ∧
    (handlePresetChange s id).controls = s.controls ∧
    (handlePresetChange s id).selectedPreset = s.selectedPreset := by
  have hnone : getPresetById id = none := by
    rw [getPresetById_eq_none_iff]
    intro p hp hid
    exact h ⟨p, hp, hid⟩
  rw [handlePresetChange_of_none s id hnone]
  exact ⟨rfl, rfl, rfl⟩

/-- Witness of C25 at the identifier "nonexistent", from the initial state. -/
theorem handlePresetChange_unknown_id_witness :
    handlePresetChange
        ⟨none, false, false, false, none, [], none, "tropical-wet-evergreen", initialControls⟩
        "nonexistent"
      = ⟨none, false, false, false, none, [], none, "tropical-wet-evergreen", initialControls⟩ :=
  (handlePresetChange_unknown_id
    ⟨none, false, false, false, none, [], none, "tropical-wet-evergreen", initialControls⟩
    "nonexistent" (by rw [exists_preset_id_iff]; decide)).1

/-! ## Maximum structural density -/

lemma exp_neg_08_bounds :
    (0.4493 : ℝ) < Real.exp (-(8 / 10)) ∧ Real.exp (-(8 / 10)) < 0.4494 := by
  have habs : |(-(8 / 10) : ℝ)| = 8 / 10 := by
    rw [abs_neg, abs_of_pos (by norm_num)]
  have h := Real.exp_bound (x := -(8 / 10)) (by rw [habs]; norm_num) (n := 8) (by norm_num)
  rw [habs] at h
  simp only [Finset.sum_range_succ, Finset.sum_range_zero, Nat.factorial] at h
  rw [abs_le] at h
  norm_num at h
  constructor <;> norm_num <;> linarith [h.1, h.2]

lemma exp_neg_16_bounds :
    (0.2018 : ℝ) < Real.exp (-(16 / 10)) ∧ Real.exp (-(16 / 10)) < 0.2020 := by
  have e : (-(16 / 10) : ℝ) = -(8 / 10) + -(8 / 10) := by norm_num
  rw [e, Real.exp_add]
  obtain ⟨h1, h2⟩ := exp_neg_08_bounds
  constructor <;> nlinarith

/-- C23 (code behaviour at the failing input): at canopyCover = 100, lai = 10
`autoPenetration` is `5 + 95*exp(-1.6)`, between 24.1 and 24.3 and so not
about 5; at canopyCover = 0, lai = 0 it is exactly 100. -/
theorem autoPenetration_at_extremes :
    autoPenetration ⟨100, 10, 100, some 90, some 20⟩ = 5 + 95 * Real.exp (-1.6) ∧
    24.1 < autoPenetration ⟨100, 10, 100, some 90, some 20⟩ ∧
    autoPenetration ⟨100, 10, 100, some 90, some 20⟩ < 24.3 ∧
    autoPenetration ⟨0, 0, 100, some 90, some 0⟩ = 100 := by
  have hval : autoPenetration ⟨100, 10, 100, some 90, some 20⟩
      = 5 + Real.exp (-(16 / 10)) * 95 := by
    rw [autoPenetration_eq]
    norm_num
  obtain ⟨h1, h2⟩ := exp_neg_16_bounds
  refine ⟨?_, ?_, ?_, ?_⟩
  · rw [hval]
    norm_num
    ring
  · rw [hval]
    linarith
  · rw [hval]
    linarith
  · rw [autoPenetration_eq]
    norm_num

/-! ## Lower layers without their clamps -/

lemma effective_fraction_bounds (c : ForestControls)
    (hc0 : 0 ≤ c.canopyCover) (hl0 : 0 ≤ c.lai)
    (hp0 : 0 ≤ c.lightPenetration) (hp1 : c.lightPenetration ≤ 100) :
    0 ≤ calculateAutomaticLightPenetration c / 100 ∧
    calculateAutomaticLightPenetration c / 100 ≤ 1 := by
  obtain ⟨he0, he1⟩ := calculateAutomaticLightPenetration_bounds_aux c hc0 hl0 hp0 hp1
  constructor
  · positivity
  · linarith

lemma calculateLayerLight_understory_eq (c : ForestControls) :
    calculateLayerLight c "understory"
      = max 2 (min 15 (5 + (10 * Real.exp (-0.5 * c.lai * (c.canopyCover / 100) * 1.5)
          * (calculateAutomaticLightPenetration c / 100)))) := by
  simp [calculateLayerLight]

lemma calculateLayerLight_floor_eq (c : ForestControls) :
    calculateLayerLight c "forest-floor"
      = max 0.5 (min 5 (1 + (2 * Real.exp (-0.5 * c.lai * (c.canopyCover / 100) * 2)
          * (calculateAutomaticLightPenetration c / 100)))) := by
  simp [calculateLayerLight]

lemma calculateLayerLight_emergent_eq (c : ForestControls) :
    calculateLayerLight c "emergent"
      = max 90 (100 - (c.lai * 0.8)) * (calculateAutomaticLightPenetration c / 100) := by
  simp [calculateLayerLight]

lemma calculateLayerLight_canopy_eq (c : ForestControls) :
    calculateLayerLight c "canopy"
      = (70 + (30 * Real.exp (-0.5 * c.lai * (c.canopyCover / 100))))
          * (0.7 + 0.3 * (1 - c.canopyCover / 100))
          * (calculateAutomaticLightPenetration c / 100) := by
  simp [calculateLayerLight]

/-- A product `t * e` of a transmission `t = exp x` with `x ≤ 0` and a fraction
`e` in [0,1] lies in [0, e]. -/
lemma transmission_mul_bounds (x e : ℝ) (hx : x ≤ 0) (he0 : 0 ≤ e) :
    0 ≤ Real.exp x * e ∧ Real.exp x * e ≤ e := by
  have h0 := Real.exp_pos x
  have h1 := Real.exp_le_one_iff.mpr hx
  constructor
  · positivity
  · nlinarith

lemma understory_unclamped (c : ForestControls)
    (hc0 : 0 ≤ c.canopyCover) (hl0 : 0 ≤ c.lai)
    (hp0 : 0 ≤ c.lightPenetration) (hp1 : c.lightPenetration ≤ 100) :
    calculateLayerLight c "understory"
      = 5 + (10 * Real.exp (-0.5 * c.lai * (c.canopyCover / 100) * 1.5)
          * (calculateAutomaticLightPenetration c / 100)) ∧
    5 ≤ calculateLayerLight c "understory" ∧ calculateLayerLight c "understory" ≤ 15 := by
  obtain ⟨he0, he1⟩ := effective_fraction_bounds c hc0 hl0 hp0 hp1
  have hd0 : 0 ≤ c.canopyCover / 100 := by positivity
  have harg : -0.5 * c.lai * (c.canopyCover / 100) * 1.5 ≤ 0 := by
    nlinarith [mul_nonneg hl0 hd0]
  obtain ⟨ht0, ht1⟩ := transmission_mul_bounds _ _ harg he0
  have hlo : 5 ≤ 5 + (10 * Real.exp (-0.5 * c.lai * (c.canopyCover / 100) * 1.5)
      * (calculateAutomaticLightPenetration c / 100)) := by nlinarith
  have hhi : 5 + (10 * Real.exp (-0.5 * c.lai * (c.canopyCover / 100) * 1.5)
      * (calculateAutomaticLightPenetration c / 100)) ≤ 15 := by nlinarith
  rw [calculateLayerLight_understory_eq, min_eq_right hhi,
    max_eq_right (le_trans (by norm_num) hlo)]
  exact ⟨rfl, hlo, hhi⟩

lemma floor_unclamped (c : ForestControls)
    (hc0 : 0 ≤ c.canopyCover) (hl0 : 0 ≤ c.lai)
    (hp0 : 0 ≤ c.lightPenetration) (hp1 : c.lightPenetration ≤ 100) :
    calculateLayerLight c "forest-floor"
      = 1 + (2 * Real.exp (-0.5 * c.lai * (c.canopyCover / 100) * 2)
          * (calculateAutomaticLightPenetration c / 100)) ∧
    1 ≤ calculateLayerLight c "forest-floor" ∧
    calculateLayerLight c "forest-floor"
      ≤ 1 + 2 * (calculateAutomaticLightPenetration c / 100) ∧
    calculateLayerLight c "forest-floor" ≤ 3 := by
  obtain ⟨he0, he1⟩ := effective_fraction_bounds c hc0 hl0 hp0 hp1
  have hd0 : 0 ≤ c.canopyCover / 100 := by positivity
  have harg : -0.5 * c.lai * (c.canopyCover / 100) * 2 ≤ 0 := by
    nlinarith [mul_nonneg hl0 hd0]
  obtain ⟨ht0, ht1⟩ := transmission_mul_bounds _ _ harg he0
  have hlo : 1 ≤ 1 + (2 * Real.exp (-0.5 * c.lai * (c.canopyCover / 100) * 2)
      * (calculateAutomaticLightPenetration c / 100)) := by nlinarith
  have hmid : 1 + (2 * Real.exp (-0.5 * c.lai * (c.canopyCover / 100) * 2)
      * (calculateAutomaticLightPenetration c / 100))
      ≤ 1 + 2 * (calculateAutomaticLightPenetration c / 100) := by nlinarith
  have hhi : 1 + (2 * Real.exp (-0.5 * c.lai * (c.canopyCover / 100) * 2)
      * (calculateAutomaticLightPenetration c / 100)) ≤ 3 := by linarith
  rw [calculateLayerLight_floor_eq, min_eq_right (le_trans hhi (by norm_num)),
    max_eq_right (le_trans (by norm_num) hlo)]
  exact ⟨rfl, hlo, hmid, hhi⟩

/-! ## Ordering of the layers -/

/-- C24 (code behaviour at the failing input): with the wet-evergreen structure
and lightPenetration = 0 (a valid value) the emergent and canopy light levels
are 0 while the forest floor keeps its base level 1, so the forest floor does
not get the least light. -/
theorem forestFloor_not_least_at_zero_intensity :
    ((0 : ℝ) ≤ 90 ∧ (90 : ℝ) ≤ 100) ∧ ((0 : ℝ) ≤ 7.5 ∧ (7.5 : ℝ) ≤ 10) ∧
    ((0 : ℝ) ≤ 0 ∧ (0 : ℝ) ≤ 100) ∧ ((0 : ℝ) ≤ 75 ∧ (75 : ℝ) ≤ 180) ∧
    calculateLayerLight ⟨90, 7.5, 0, some 75, some 3⟩ "forest-floor" = 1 ∧
    calculateLayerLight ⟨90, 7.5, 0, some 75, some 3⟩ "emergent" = 0 ∧
    calculateLayerLight ⟨90, 7.5, 0, some 75, some 3⟩ "canopy" = 0 ∧
    ¬ (calculateLayerLight ⟨90, 7.5, 0, some 75, some 3⟩ "forest-floor"
        ≤ calculateLayerLight ⟨90, 7.5, 0, some 75, some 3⟩ "emergent") ∧
    ¬ (calculateLayerLight ⟨90, 7.5, 0, some 75, some 3⟩ "forest-floor"
        ≤ calculateLayerLight ⟨90, 7.5, 0, some 75, some 3⟩ "canopy") := by
  have he : calculateAutomaticLightPenetration ⟨90, 7.5, 0, some 75, some 3⟩ = 0 := by
    rw [calculateAutomaticLightPenetration_eq]
    norm_num
  have hf : calculateLayerLight ⟨90, 7.5, 0, some 75, some 3⟩ "forest-floor" = 1 := by
    rw [calculateLayerLight_floor_eq, he]
    norm_num
  have hem : calculateLayerLight ⟨90, 7.5, 0, some 75, some 3⟩ "emergent" = 0 := by
    rw [calculateLayerLight_emergent_eq, he]
    norm_num
  have hca : calculateLayerLight ⟨90, 7.5, 0, some 75, some 3⟩ "canopy" = 0 := by
    rw [calculateLayerLight_canopy_eq, he]
    norm_num
  refine ⟨by norm_num, by norm_num, by norm_num, by norm_num, hf, hem, hca, ?_, ?_⟩
  · rw [hf, hem]
    norm_num
  · rw [hf, hca]
    norm_num

/-- C26: for every valid controls value the understory light level is the
unclamped `5 + 10*exp(-0.75*lai*d)*eff`, in [5,15], and the forest-floor light
level is the unclamped `1 + 2*exp(-lai*d)*eff`, in [1,3], with
`d = canopyCover/100` and `eff` the effective penetration over 100; so the
bounds 2, 0.5 and 5 of the clamps are never attained. -/
theorem lower_layers_clamps_inactive (c : ForestControls)
    (hc0 : 0 ≤ c.canopyCover) (_hc1 : c.canopyCover ≤ 100)
    (hl0 : 0 ≤ c.lai) (_hl1 : c.lai ≤ 10)
    (hp0 : 0 ≤ c.lightPenetration) (hp1 : c.lightPenetration ≤ 100)
    (_hs : ∀ a, c.sunAngle = some a → 0 ≤ a ∧ a ≤ 180) :
    (calculateLayerLight c "understory"
        = 5 + 10 * Real.exp (-0.75 * c.lai * (c.canopyCover / 100))
            * (calculateAutomaticLightPenetration c / 100) ∧
      5 ≤ calculateLayerLight c "understory" ∧ calculateLayerLight c "understory" ≤ 15 ∧
      calculateLayerLight c "understory" ≠ 2) ∧
    (calculateLayerLight c "forest-floor"
        = 1 + 2 * Real.exp (-c.lai * (c.canopyCover / 100))
            * (calculateAutomaticLightPenetration c / 100) ∧
      1 ≤ calculateLayerLight c "forest-floor" ∧ calculateLayerLight c "forest-floor" ≤ 3 ∧
      calculateLayerLight c "forest-floor" ≠ 0.5 ∧
      calculateLayerLight c "forest-floor" ≠ 5) := by
  obtain ⟨hue, hu5, hu15⟩ := understory_unclamped c hc0 hl0 hp0 hp1
  obtain ⟨hfe, hf1, _, hf3⟩ := floor_unclamped c hc0 hl0 hp0 hp1
  have eu : -0.75 * c.lai * (c.canopyCover / 100)
      = -0.5 * c.lai * (c.canopyCover / 100) * 1.5 := by ring
  have ef : -c.lai * (c.canopyCover / 100)
      = -0.5 * c.lai * (c.canopyCover / 100) * 2 := by ring
  refine ⟨⟨?_, hu5, hu15, ?_⟩, ⟨?_, hf1, hf3, ?_, ?_⟩⟩
  · rw [eu]
    exact hue
  · intro h
    rw [h] at hu5
    norm_num at hu5
  · rw [ef]
    exact hfe
  · intro h
    rw [h] at hf1
    norm_num at hf1
  · intro h
    rw [h] at hf3
    norm_num at hf3

/-- Witness of C26 at the moist-deciduous defaults. -/
theorem lower_layers_clamps_inactive_witness :
    5 ≤ calculateLayerLight ⟨65, 5.0, 70, some 65, some 8⟩ "understory" ∧
    calculateLayerLight ⟨65, 5.0, 70, some 65, some 8⟩ "forest-floor" ≤ 3 :=
  ⟨(lower_layers_clamps_inactive ⟨65, 5.0, 70, some 65, some 8⟩
      (by norm_num) (by norm_num) (by norm_num) (by norm_num) (by norm_num) (by norm_num)
      (by intro a h; cases h; norm_num)).1.2.1,
    (lower_layers_clamps_inactive ⟨65, 5.0, 70, some 65, some 8⟩
      (by norm_num) (by norm_num) (by norm_num) (by norm_num) (by norm_num) (by norm_num)
      (by intro a h; cases h; norm_num)).2.2.2.1⟩

/-! ## Reachable biodiversity scores -/

lemma orDefault_zero_bounds (x : Option ℝ) (hx : ∀ g, x = some g → 0 ≤ g ∧ g ≤ 20) :
    0 ≤ orDefault x 0 ∧ orDefault x 0 ≤ 20 ∧ (orDefault x 0 = 20 ↔ x = some 20) := by
  cases x with
  | none =>
    refine ⟨le_refl _, by norm_num [orDefault], ?_⟩
    constructor
    · intro h
      norm_num [orDefault] at h
    · intro h
      cases h
  | some g =>
    rw [orDefault_some_zero]
    obtain ⟨h0, h1⟩ := hx g rfl
    refine ⟨h0, h1, ?_⟩
    constructor
    · intro h
      rw [h]
    · intro h
      exact Option.some.inj h

/-- C27: for canopyCover in [0,100], lai in [0,10] and canopyGaps in [0,20] (or
missing) the biodiversity index is at most 85, hence below the ceiling 100, and
it equals 85 exactly when canopyCover = 100, lai = 10 and canopyGaps = 20. -/
theorem calculateBiodiversity_le_85 (c : ForestControls)
    (hc0 : 0 ≤ c.canopyCover) (hc1 : c.canopyCover ≤ 100)
    (hl0 : 0 ≤ c.lai) (hl1 : c.lai ≤ 10)
    (hg : ∀ g, c.canopyGaps = some g → 0 ≤ g ∧ g ≤ 20) :
    calculateBiodiversity c ≤ 85 ∧ calculateBiodiversity c < 100 ∧
    (calculateBiodiversity c = 85 ↔
      c.canopyCover = 100 ∧ c.lai = 10 ∧ c.canopyGaps = some 20) := by
  obtain ⟨hG0, hG1, hG⟩ := orDefault_zero_bounds c.canopyGaps hg
  have hs : structureFactor c = (c.canopyCover / 100) * 0.4 + (c.lai / 10) * 0.3 := rfl
  have hlo : (20 : ℝ) ≤ (structureFactor c * 50)
      + (orDefault c.canopyGaps 0 / 20 * 30) + 20 := by
    rw [hs]
    linarith
  have hhi : (structureFactor c * 50) + (orDefault c.canopyGaps 0 / 20 * 30) + 20 ≤ 85 := by
    rw [hs]
    linarith
  have hval : calculateBiodiversity c
      = (structureFactor c * 50) + (orDefault c.canopyGaps 0 / 20 * 30) + 20 := by
    rw [calculateBiodiversity_eq, min_eq_right hG1, max_eq_right hlo,
      min_eq_right (le_trans hhi (by norm_num))]
  rw [hval]
  refine ⟨hhi, by linarith, ?_⟩
  rw [← hG, hs]
  constructor
  · intro h
    refine ⟨?_, ?_, ?_⟩ <;> linarith
  · rintro ⟨h1, h2, h3⟩
    rw [h1, h2, h3]
    norm_num

/-- Witness of C27 at canopyCover = 100, lai = 10, canopyGaps = 20. -/
theorem calculateBiodiversity_le_85_witness :
    calculateBiodiversity ⟨100, 10, 100, some 90, some 20⟩ ≤ 85 ∧
    calculateBiodiversity ⟨100, 10, 100, some 90, some 20⟩ = 85 :=
  ⟨(calculateBiodiversity_le_85 ⟨100, 10, 100, some 90, some 20⟩
      (by norm_num) (by norm_num) (by norm_num) (by norm_num)
      (by intro g h; cases h; norm_num)).1,
    (calculateBiodiversity_le_85 ⟨100, 10, 100, some 90, some 20⟩
      (by norm_num) (by norm_num) (by norm_num) (by norm_num)
      (by intro g h; cases h; norm_num)).2.2.mpr ⟨rfl, rfl, rfl⟩⟩

/-! ## Displayed integers -/

lemma mathRound_eq (x : ℝ) : mathRound x = ⌊x + 1 / 2⌋ := rfl

lemma mathRound_intCast (n : ℤ) : mathRound (n : ℝ) = n := by
  rw [mathRound_eq, Int.floor_eq_iff]
  constructor <;> linarith

/-- C28: for valid canopyCover and lai the displayed Tree Density lies in
[0,130]; at canopyCover = 100, lai = 10 it is 130, above 100. -/
theorem treeDensity_range (c : ForestControls)
    (hc0 : 0 ≤ c.canopyCover) (hc1 : c.canopyCover ≤ 100)
    (hl0 : 0 ≤ c.lai) (hl1 : c.lai ≤ 10) :
    (0 ≤ ModelControls.treeDensity c ∧ ModelControls.treeDensity c ≤ 130) ∧
    ModelControls.treeDensity ⟨100, 10, 100, some 90, some 20⟩ = 130 ∧
    100 < ModelControls.treeDensity ⟨100, 10, 100, some 90, some 20⟩ := by
  have h130 : ModelControls.treeDensity ⟨100, 10, 100, some 90, some 20⟩ = 130 := by
    have e : ((100 : ℝ) / 100) * 100 + ((10 : ℝ) / 10) * 30 = ((130 : ℤ) : ℝ) := by norm_num
    show mathRound (((100 : ℝ) / 100) * 100 + ((10 : ℝ) / 10) * 30) = 130
    rw [e, mathRound_intCast]
  refine ⟨⟨?_, ?_⟩, h130, ?_⟩
  · show 0 ≤ mathRound ((c.canopyCover / 100) * 100 + (c.lai / 10) * 30)
    rw [mathRound_eq]
    apply Int.floor_nonneg.mpr
    linarith
  · show mathRound ((c.canopyCover / 100) * 100 + (c.lai / 10) * 30) ≤ 130
    rw [mathRound_eq]
    have : ⌊(c.canopyCover / 100) * 100 + (c.lai / 10) * 30 + 1 / 2⌋ < 131 := by
      apply Int.floor_lt.mpr
      push_cast
      linarith
    omega
  · rw [h130]
    norm_num

/-- Witness of C28 at the semi-evergreen defaults. -/
theorem treeDensity_range_witness :
    0 ≤ ModelControls.treeDensity ⟨75, 6.0, 65, some 70, some 5⟩ ∧
    ModelControls.treeDensity ⟨75, 6.0, 65, some 70, some 5⟩ ≤ 130 :=
  (treeDensity_range ⟨75, 6.0, 65, some 70, some 5⟩
    (by norm_num) (by norm_num) (by norm_num) (by norm_num)).1

/-- C29: the index shown by ModelControls is `Math.round` of the value returned
by `calculateBiodiversity`; the two agree exactly when that value is an
integer; for canopyCover = 90, lai = 7.5, canopyGaps = 3 the panel shows 54
while `calculateBiodiversity` returns 53.75. -/
theorem biodiversityIndex_is_rounded (c : ForestControls) :
    ModelControls.biodiversityIndex c = mathRound (calculateBiodiversity c) ∧
    (((ModelControls.biodiversityIndex c : ℤ) : ℝ) = calculateBiodiversity c ↔
      ∃ n : ℤ, calculateBiodiversity c = (n : ℝ)) ∧
    ModelControls.biodiversityIndex ⟨90, 7.5, 60, some 90, some 3⟩ = 54 ∧
    calculateBiodiversity ⟨90, 7.5, 60, some 90, some 3⟩ = 53.75 ∧
    ((ModelControls.biodiversityIndex ⟨90, 7.5, 60, some 90, some 3⟩ : ℤ) : ℝ)
      ≠ calculateBiodiversity ⟨90, 7.5, 60, some 90, some 3⟩ := by
  have hidx : ∀ d : ForestControls,
      ModelControls.biodiversityIndex d = mathRound (calculateBiodiversity d) :=
    fun _ => rfl
  have h54 : ModelControls.biodiversityIndex ⟨90, 7.5, 60, some 90, some 3⟩ = 54 := by
    rw [hidx, calculateBiodiversity_denseEvergreen, mathRound_eq, Int.floor_eq_iff]
    constructor <;> norm_num
  refine ⟨hidx c, ?_, h54, calculateBiodiversity_denseEvergreen, ?_⟩
  · constructor
    · intro h
      exact ⟨_, h.symm⟩
    · rintro ⟨n, hn⟩
      rw [hidx, hn, mathRound_intCast]
  · rw [h54, calculateBiodiversity_denseEvergreen]
    norm_num

/-! ## Ray layout -/

lemma calculateLayerLight_emergent_bounds (c : ForestControls)
    (hc0 : 0 ≤ c.canopyCover) (hl0 : 0 ≤ c.lai)
    (hp0 : 0 ≤ c.lightPenetration) (hp1 : c.lightPenetration ≤ 100) :
    0 ≤ calculateLayerLight c "emergent" ∧ calculateLayerLight c "emergent" ≤ 100 := by
  obtain ⟨he0, he1⟩ := effective_fraction_bounds c hc0 hl0 hp0 hp1
  rw [calculateLayerLight_emergent_eq]
  have hm0 : (0 : ℝ) ≤ max 90 (100 - (c.lai * 0.8)) :=
    le_trans (by norm_num) (le_max_left _ _)
  have hm1 : max 90 (100 - (c.lai * 0.8)) ≤ 100 := max_le (by norm_num) (by linarith)
  constructor
  · exact mul_nonneg hm0 he0
  · calc max 90 (100 - (c.lai * 0.8)) * (calculateAutomaticLightPenetration c / 100)
        ≤ 100 * 1 := mul_le_mul hm1 he1 he0 (by norm_num)
      _ = 100 := by norm_num

/-- C30: for every valid controls value `rayCount` is an integer in [5,10], so
the divisor `rayCount - 1` of the per-ray offset is at least 4 and not zero. -/
theorem rayCount_range (c : ForestControls)
    (hc0 : 0 ≤ c.canopyCover) (_hc1 : c.canopyCover ≤ 100)
    (hl0 : 0 ≤ c.lai) (_hl1 : c.lai ≤ 10)
    (hp0 : 0 ≤ c.lightPenetration) (hp1 : c.lightPenetration ≤ 100)
    (_hs : ∀ a, c.sunAngle = some a → 0 ≤ a ∧ a ≤ 180) :
    (5 ≤ rayCount c ∧ rayCount c ≤ 10) ∧ 4 ≤ rayCount c - 1 ∧ rayCount c - 1 ≠ 0 := by
  obtain ⟨he0, he1⟩ := calculateLayerLight_emergent_bounds c hc0 hl0 hp0 hp1
  have hr : rayCount c = ⌊5 + (calculateLayerLight c "emergent" / 100) * 5⌋ := rfl
  have h5 : 5 ≤ rayCount c := by
    rw [hr]
    apply Int.le_floor.mpr
    push_cast
    linarith
  have h10 : rayCount c ≤ 10 := by
    have : rayCount c < 11 := by
      rw [hr]
      apply Int.floor_lt.mpr
      push_cast
      linarith
    omega
  refine ⟨⟨h5, h10⟩, ?_, ?_⟩ <;> omega

/-- Witness of C30 at the thorn-forest defaults. -/
theorem rayCount_range_witness :
    (5 ≤ rayCount ⟨25, 1.5, 95, some 55, some 15⟩ ∧
      rayCount ⟨25, 1.5, 95, some 55, some 15⟩ ≤ 10) ∧
    4 ≤ rayCount ⟨25, 1.5, 95, some 55, some 15⟩ - 1 ∧
    rayCount ⟨25, 1.5, 95, some 55, some 15⟩ - 1 ≠ 0 :=
  rayCount_range ⟨25, 1.5, 95, some 55, some 15⟩
    (by norm_num) (by norm_num) (by norm_num) (by norm_num) (by norm_num) (by norm_num)
    (by intro a h; cases h; norm_num)

/-! ## Sun-angle symmetry in binary64 arithmetic -/

lemma F64.log_eq (x : ℝ) (e : ℤ) (h1 : (2 : ℝ) ^ e ≤ x) (h2 : x < (2 : ℝ) ^ (e + 1)) :
    Int.log 2 |x| = e := by
  have hx : 0 < x := lt_of_lt_of_le (by positivity) h1
  rw [abs_of_pos hx]
  have a : e ≤ Int.log 2 x := by
    apply (Int.zpow_le_iff_le_log (by norm_num) hx).mp
    simpa using h1
  have b : Int.log 2 x < e + 1 := by
    apply (Int.lt_zpow_iff_log_lt (by norm_num) hx).mp
    simpa using h2
  omega

lemma F64.ulp_eq (x : ℝ) (e : ℤ) (h1 : (2 : ℝ) ^ e ≤ x) (h2 : x < (2 : ℝ) ^ (e + 1)) :
    F64.ulp x = (2 : ℝ) ^ (e - 52) := by
  unfold F64.ulp
  rw [F64.log_eq x e h1 h2]

lemma F64.roundHalfEven_eq (y : ℝ) (n : ℤ) (h : |y - n| < 1 / 2) :
    F64.roundHalfEven y = n := by
  rw [abs_lt] at h
  obtain ⟨h1, h2⟩ := h
  unfold F64.roundHalfEven
  by_cases hc : (n : ℝ) ≤ y
  · have hf : ⌊y⌋ = n := by
      rw [Int.floor_eq_iff]
      constructor <;> linarith
    have hfr : Int.fract y < 1 / 2 := by
      rw [Int.fract, hf]
      linarith
    rw [if_pos hfr, hf]
  · push_neg at hc
    have hf : ⌊y⌋ = n - 1 := by
      rw [Int.floor_eq_iff]
      push_cast
      constructor <;> linarith
    have hfr : 1 / 2 < Int.fract y := by
      rw [Int.fract, hf]
      push_cast
      linarith
    rw [if_neg (not_lt.mpr hfr.le), if_pos hfr, hf]
    ring

lemma F64.roundHalfEven_err (y : ℝ) : |(F64.roundHalfEven y : ℝ) - y| ≤ 1 / 2 := by
  have h0 := Int.fract_nonneg y
  have h1 := Int.fract_lt_one y
  have hy : y = ⌊y⌋ + Int.fract y := (Int.floor_add_fract y).symm
  unfold F64.roundHalfEven
  rw [abs_le]
  split_ifs with a b c
  · constructor <;> linarith
  · push_cast
    constructor <;> linarith
  · have : Int.fract y = 1 / 2 := le_antisymm (not_lt.mp b) (not_lt.mp a)
    constructor <;> linarith
  · have : Int.fract y = 1 / 2 := le_antisymm (not_lt.mp b) (not_lt.mp a)
    push_cast
    constructor <;> linarith

lemma F64.round_eq (x : ℝ) (e n : ℤ) (h1 : (2 : ℝ) ^ e ≤ x) (h2 : x < (2 : ℝ) ^ (e + 1))
    (hn : |x / (2 : ℝ) ^ (e - 52) - n| < 1 / 2) :
    F64.round x = n * (2 : ℝ) ^ (e - 52) := by
  unfold F64.round
  rw [F64.ulp_eq x e h1 h2, F64.roundHalfEven_eq _ n hn]

lemma F64.round_err (x : ℝ) (e : ℤ) (h1 : (2 : ℝ) ^ e ≤ x) (h2 : x < (2 : ℝ) ^ (e + 1)) :
    |F64.round x - x| ≤ (2 : ℝ) ^ (e - 53) := by
  unfold F64.round
  rw [F64.ulp_eq x e h1 h2]
  have hu : (0 : ℝ) < (2 : ℝ) ^ (e - 52) := by positivity
  have h := F64.roundHalfEven_err (x / (2 : ℝ) ^ (e - 52))
  have e1 : (F64.roundHalfEven (x / (2 : ℝ) ^ (e - 52)) : ℝ) * (2 : ℝ) ^ (e - 52) - x
      = ((F64.roundHalfEven (x / (2 : ℝ) ^ (e - 52)) : ℝ) - x / (2 : ℝ) ^ (e - 52))
          * (2 : ℝ) ^ (e - 52) := by
    field_simp
  have e2 : (2 : ℝ) ^ (e - 53) = 1 / 2 * (2 : ℝ) ^ (e - 52) := by
    have : e - 52 = (e - 53) + 1 := by ring
    rw [this, zpow_add₀ (by norm_num : (2 : ℝ) ≠ 0), zpow_one]
    ring
  rw [e1, e2, abs_mul, abs_of_pos hu]
  exact mul_le_mul_of_nonneg_right h hu.le

lemma F64.round_zero : F64.round 0 = 0 := by
  unfold F64.round
  rw [zero_div, F64.roundHalfEven_eq 0 0 (by norm_num)]
  simp


lemma Math.PI_eq_round : Math.PI = F64.round Real.pi := by
  have h1 := Real.pi_gt_d20
  have h2 := Real.pi_lt_d20
  rw [F64.round_eq Real.pi 1 7074237752028440 (by norm_num; linarith) (by norm_num; linarith)
    (by rw [abs_lt]; constructor <;> norm_num <;> linarith)]
  unfold Math.PI
  norm_num

lemma F64.round_one : F64.round 1 = 1 := by
  rw [F64.round_eq 1 0 (2 ^ 52) (by norm_num) (by norm_num) (by norm_num)]
  norm_num

lemma F64.round_95 : F64.round 95 = 95 := by
  rw [F64.round_eq 95 6 (95 * 2 ^ 46) (by norm_num) (by norm_num) (by norm_num)]
  norm_num

lemma F64.round_100 : F64.round 100 = 100 := by
  rw [F64.round_eq 100 6 (100 * 2 ^ 46) (by norm_num) (by norm_num) (by norm_num)]
  norm_num

lemma F64.round_64_div_100 :
    F64.round (64 / 100) = 5764607523034235 / 9007199254740992 := by
  rw [F64.round_eq (64 / 100) (-1) 5764607523034235 (by norm_num) (by norm_num)
    (by rw [abs_lt]; constructor <;> norm_num)]
  norm_num

lemma F64.round_100_mul :
    F64.round (100 * (5764607523034235 / 9007199254740992)) = 64 := by
  rw [F64.round_eq _ 6 (2 ^ 52) (by norm_num) (by norm_num)
    (by rw [abs_lt]; constructor <;> norm_num)]
  norm_num

lemma F64.round_03 : F64.round 0.3 = 5404319552844595 / 18014398509481984 := by
  rw [F64.round_eq 0.3 (-2) 5404319552844595 (by norm_num) (by norm_num)
    (by rw [abs_lt]; constructor <;> norm_num)]
  norm_num

lemma F64.round_07 : F64.round 0.7 = 3152519739159347 / 4503599627370496 := by
  rw [F64.round_eq 0.7 (-1) 6305039478318694 (by norm_num) (by norm_num)
    (by rw [abs_lt]; constructor <;> norm_num)]
  norm_num

lemma angleRad_5 :
    angleRadF64 5 = 6288211335136391 / 72057594037927936 := by
  unfold angleRadF64
  have h : F64.round (5 * Math.PI) = 4421398595017775 / 281474976710656 := by
    unfold Math.PI
    rw [F64.round_eq _ 3 8842797190035550 (by norm_num) (by norm_num)
      (by rw [abs_lt]; constructor <;> norm_num)]
    norm_num
  rw [h, F64.round_eq _ (-4) 6288211335136391 (by norm_num) (by norm_num)
    (by rw [abs_lt]; constructor <;> norm_num)]
  norm_num

lemma angleRad_175 :
    angleRadF64 175 = 6877731147805427 / 2251799813685248 := by
  unfold angleRadF64
  have h : F64.round (175 * Math.PI) = 4835904713300691 / 8796093022208 := by
    unfold Math.PI
    rw [F64.round_eq _ 9 4835904713300691 (by norm_num) (by norm_num)
      (by rw [abs_lt]; constructor <;> norm_num)]
    norm_num
  rw [h, F64.round_eq _ 1 6877731147805427 (by norm_num) (by norm_num)
    (by rw [abs_lt]; constructor <;> norm_num)]
  norm_num

/-- The true sines at the two rounded angles differ by more than 4.67e-16. -/
lemma sin_gap_5_175 :
    Real.sin (6288211335136391 / 72057594037927936) + 467 / 10 ^ 18
      ≤ Real.sin (6877731147805427 / 2251799813685248) := by
  have hp1 := Real.pi_gt_d20
  have hp2 := Real.pi_lt_d20
  set v : ℝ := 6288211335136391 / 72057594037927936 with hv
  set w : ℝ := 6877731147805427 / 2251799813685248 with hw
  have hsw : Real.sin w = Real.sin (Real.pi - w) := (Real.sin_pi_sub w).symm
  have hdiff := Real.sin_sub_sin (Real.pi - w) v
  have hh0 : (2347 / 10 ^ 19 : ℝ) ≤ (Real.pi - w - v) / 2 := by
    rw [hv, hw]
    norm_num at hp1 ⊢
    linarith
  have hh1 : (Real.pi - w - v) / 2 ≤ 1 / 10 ^ 15 := by
    rw [hv, hw]
    norm_num at hp2 ⊢
    linarith
  have hm0 : (0 : ℝ) ≤ (Real.pi - w + v) / 2 := by
    rw [hv, hw]
    norm_num at hp1 ⊢
    linarith
  have hm1 : (Real.pi - w + v) / 2 ≤ 873 / 10 ^ 4 := by
    rw [hv, hw]
    norm_num at hp2 ⊢
    linarith
  have hpos : (0 : ℝ) < (Real.pi - w - v) / 2 := lt_of_lt_of_le (by norm_num) hh0
  have hsin := Real.sin_gt_sub_cube hpos (le_trans hh1 (by norm_num))
  have hcos := Real.one_sub_sq_div_two_le_cos (x := (Real.pi - w + v) / 2)
  have hc : (9961 / 10 ^ 4 : ℝ) ≤ Real.cos ((Real.pi - w + v) / 2) := by
    have : ((Real.pi - w + v) / 2) ^ 2 ≤ (873 / 10 ^ 4) ^ 2 :=
      pow_le_pow_left₀ hm0 hm1 2
    norm_num at this ⊢
    linarith
  have hs : (2346 / 10 ^ 19 : ℝ) ≤ Real.sin ((Real.pi - w - v) / 2) := by
    have hsq : ((Real.pi - w - v) / 2) ^ 2 ≤ (1 / 10 ^ 15) ^ 2 :=
      pow_le_pow_left₀ hpos.le hh1 2
    have hcube : ((Real.pi - w - v) / 2) ^ 3
        ≤ (Real.pi - w - v) / 2 * (1 / 10 ^ 15) ^ 2 := by
      have : ((Real.pi - w - v) / 2) ^ 3
          = (Real.pi - w - v) / 2 * ((Real.pi - w - v) / 2) ^ 2 := by ring
      rw [this]
      exact mul_le_mul_of_nonneg_left hsq hpos.le
    norm_num at hcube ⊢
    nlinarith
  have hprod : (2346 / 10 ^ 19 : ℝ) * (9961 / 10 ^ 4)
      ≤ Real.sin ((Real.pi - w - v) / 2) * Real.cos ((Real.pi - w + v) / 2) :=
    mul_le_mul hs hc (by norm_num) (le_trans (by norm_num) hs)
  rw [hsw]
  norm_num at hprod ⊢
  linarith

/-- Multiplying a rounded number of the binade [1/2, 1) by 64 is exact. -/
lemma F64.round_64_mul_round (t : ℝ) (h1 : 7 / 10 ≤ t) (h2 : t ≤ 8 / 10) :
    F64.round (64 * F64.round t) = 64 * F64.round t := by
  have hb1 : (2 : ℝ) ^ (-1 : ℤ) ≤ t := by norm_num; linarith
  have hb2 : t < (2 : ℝ) ^ ((-1 : ℤ) + 1) := by norm_num; linarith
  have herr := F64.round_err t (-1) hb1 hb2
  rw [abs_le] at herr
  norm_num at herr
  obtain ⟨k, hk⟩ : ∃ k : ℤ, F64.round t = (k : ℝ) * (1 / 9007199254740992) := by
    refine ⟨F64.roundHalfEven (t / (2 : ℝ) ^ ((-1 : ℤ) - 52)), ?_⟩
    unfold F64.round
    rw [F64.ulp_eq t (-1) hb1 hb2]
    norm_num
  have hs1 : (69 / 100 : ℝ) ≤ F64.round t := by linarith [herr.1]
  have hs2 : F64.round t ≤ 81 / 100 := by linarith [herr.2]
  have hz : 64 * F64.round t / (2 : ℝ) ^ ((5 : ℤ) - 52) - (k : ℝ) = 0 := by
    rw [hk]
    norm_num
    ring
  rw [F64.round_eq (64 * F64.round t) 5 k (by norm_num; linarith) (by norm_num; linarith)
    (by rw [hz]; norm_num)]
  rw [hk]
  norm_num
  ring

/-- The tail of the computation, from the angle factor on, with the factor 64 in
front: it separates two angle factors near 0.087 that are 4.28e-16 apart. -/
lemma tail_strict (a b : ℝ) (ha : 8 / 100 ≤ a) (hab : a + 428 / 10 ^ 18 ≤ b)
    (hb : b ≤ 9 / 100) :
    F64.round (64 * F64.round (F64.round 0.7 + F64.round (F64.round 0.3 * a)))
      < F64.round (64 * F64.round (F64.round 0.7 + F64.round (F64.round 0.3 * b))) := by
  rw [F64.round_03, F64.round_07]
  have hbin : ∀ x : ℝ, 8 / 100 ≤ x → x ≤ 9 / 100 →
      |F64.round (5404319552844595 / 18014398509481984 * x)
        - 5404319552844595 / 18014398509481984 * x| ≤ (2 : ℝ) ^ ((-6 : ℤ) - 53) := by
    intro x hx1 hx2
    exact F64.round_err _ (-6) (by norm_num; linarith) (by norm_num; linarith)
  have hma := hbin a ha (by linarith)
  have hmb := hbin b (by linarith) hb
  rw [abs_le] at hma hmb
  norm_num at hma hmb
  have hta1 : (7 / 10 : ℝ) ≤ 3152519739159347 / 4503599627370496
      + F64.round (5404319552844595 / 18014398509481984 * a) := by linarith [hma.1]
  have hta2 : 3152519739159347 / 4503599627370496
      + F64.round (5404319552844595 / 18014398509481984 * a) ≤ (8 / 10 : ℝ) := by
    linarith [hma.2]
  have htb1 : (7 / 10 : ℝ) ≤ 3152519739159347 / 4503599627370496
      + F64.round (5404319552844595 / 18014398509481984 * b) := by linarith [hmb.1]
  have htb2 : 3152519739159347 / 4503599627370496
      + F64.round (5404319552844595 / 18014398509481984 * b) ≤ (8 / 10 : ℝ) := by
    linarith [hmb.2]
  rw [F64.round_64_mul_round _ hta1 hta2, F64.round_64_mul_round _ htb1 htb2]
  have hsa := F64.round_err (3152519739159347 / 4503599627370496
      + F64.round (5404319552844595 / 18014398509481984 * a)) (-1)
    (by norm_num; linarith) (by norm_num; linarith)
  have hsb := F64.round_err (3152519739159347 / 4503599627370496
      + F64.round (5404319552844595 / 18014398509481984 * b)) (-1)
    (by norm_num; linarith) (by norm_num; linarith)
  rw [abs_le] at hsa hsb
  norm_num at hsa hsb
  linarith [hsa.2, hsb.1, hma.2, hmb.1]

/-- With canopyCover = 0, lai = 0 and lightPenetration = 64 everything before
the angle factor is exact: `autoPenetration` is 100 and the first product 64. -/
lemma calculateAutomaticLightPenetrationF64_open (M : JSMath) (hM : M.Faithful)
    (a : ℝ) (ha : a ≠ 0) (g : Option ℝ) :
    calculateAutomaticLightPenetrationF64 M ⟨0, 0, 64, some a, g⟩
      = F64.round (64 * F64.round (F64.round 0.7
          + F64.round (F64.round 0.3 * |M.sin (angleRadF64 a)|))) := by
  have hor : orDefault (some a) 45 = a := by simp [orDefault, ha]
  simp only [calculateAutomaticLightPenetrationF64, hor, zero_div, F64.round_zero, mul_zero,
    add_zero, F64.round_one, zero_mul, hM.1, one_mul, F64.round_95]
  have h100 : (5 : ℝ) + 95 = 100 := by norm_num
  rw [h100, F64.round_100, F64.round_64_div_100, F64.round_100_mul]

lemma faithful_sin_bounds (M : JSMath) (hM : M.Faithful) (x : ℝ)
    (h1 : 871 / 10 ^ 4 ≤ Real.sin x) (h2 : Real.sin x ≤ 873 / 10 ^ 4) :
    |M.sin x| = M.sin x ∧
    Real.sin x - 194 / 10 ^ 19 ≤ M.sin x ∧ M.sin x ≤ Real.sin x + 194 / 10 ^ 19 := by
  have h := hM.2 x
  have hpos : 0 < Real.sin x := lt_of_lt_of_le (by norm_num) h1
  rw [abs_of_pos hpos, abs_le] at h
  have hb : (2 : ℝ) ^ (-52 : ℤ) * Real.sin x ≤ 194 / 10 ^ 19 := by
    have : (2 : ℝ) ^ (-52 : ℤ) * Real.sin x ≤ (2 : ℝ) ^ (-52 : ℤ) * (873 / 10 ^ 4) :=
      mul_le_mul_of_nonneg_left h2 (by positivity)
    refine le_trans this ?_
    norm_num
  generalize (2 : ℝ) ^ (-52 : ℤ) * Real.sin x = err at h hb
  have hlo : Real.sin x - 194 / 10 ^ 19 ≤ M.sin x := by linarith [h.1]
  refine ⟨abs_of_pos (by linarith), hlo, by linarith [h.2]⟩

lemma sin_angle_5_bounds :
    871 / 10 ^ 4 ≤ Real.sin (6288211335136391 / 72057594037927936) ∧
    Real.sin (6288211335136391 / 72057594037927936) ≤ 873 / 10 ^ 4 := by
  have hpos : (0 : ℝ) < 6288211335136391 / 72057594037927936 := by norm_num
  have h1 := Real.sin_gt_sub_cube hpos (by norm_num)
  have h2 := Real.sin_lt hpos
  constructor
  · norm_num at h1 ⊢
    linarith
  · norm_num at h2 ⊢
    linarith

lemma sin_angle_175_bounds :
    871 / 10 ^ 4 ≤ Real.sin (6877731147805427 / 2251799813685248) ∧
    Real.sin (6877731147805427 / 2251799813685248) ≤ 873 / 10 ^ 4 := by
  have hp1 := Real.pi_gt_d20
  have hp2 := Real.pi_lt_d20
  have hgap := sin_gap_5_175
  have h5 := sin_angle_5_bounds
  constructor
  · linarith [h5.1]
  · rw [← Real.sin_pi_sub]
    have hpos : (0 : ℝ) < Real.pi - 6877731147805427 / 2251799813685248 := by
      norm_num at hp1 ⊢
      linarith
    have h2 := Real.sin_lt hpos
    norm_num at hp2 h2 ⊢
    linarith

lemma F64.round_rel_err (x : ℝ) : |F64.round x - x| ≤ (2 : ℝ) ^ (-53 : ℤ) * |x| := by
  by_cases hx : x = 0
  · rw [hx, F64.round_zero]
    simp
  have hpos : 0 < |x| := abs_pos.mpr hx
  have hu : (0 : ℝ) < F64.ulp x := by
    unfold F64.ulp
    positivity
  have hlog : (2 : ℝ) ^ Int.log 2 |x| ≤ |x| := by
    have := Int.zpow_log_le_self (b := 2) (by norm_num) hpos
    simpa using this
  have hulp : F64.ulp x ≤ (2 : ℝ) ^ (-52 : ℤ) * |x| := by
    unfold F64.ulp
    rw [sub_eq_add_neg, zpow_add₀ (by norm_num : (2 : ℝ) ≠ 0), mul_comm]
    exact mul_le_mul_of_nonneg_left hlog (by positivity)
  have h := F64.roundHalfEven_err (x / F64.ulp x)
  have e1 : F64.round x - x
      = ((F64.roundHalfEven (x / F64.ulp x) : ℝ) - x / F64.ulp x) * F64.ulp x := by
    unfold F64.round
    field_simp
  have e2 : (2 : ℝ) ^ (-53 : ℤ) * |x| = 1 / 2 * ((2 : ℝ) ^ (-52 : ℤ) * |x|) := by
    norm_num
    ring
  rw [e1, e2, abs_mul, abs_of_pos hu]
  exact mul_le_mul h hulp hu.le (by norm_num)

/-- Correctly rounded `Math.sin` and `Math.exp` satisfy the accuracy assumed of
an implementation. -/
lemma JSMath.correctlyRounded_faithful : JSMath.correctlyRounded.Faithful := by
  constructor
  · show F64.round (Real.exp 0) = 1
    rw [Real.exp_zero, F64.round_one]
  · intro x
    show |F64.round (Real.sin x) - Real.sin x| ≤ (2 : ℝ) ^ (-52 : ℤ) * |Real.sin x|
    refine le_trans (F64.round_rel_err (Real.sin x)) ?_
    exact mul_le_mul_of_nonneg_right (by norm_num) (abs_nonneg _)

/-- C9 fails as stated: in binary64 arithmetic, for every `Math.sin` of relative
error at most 2^-52 and `Math.exp` with `exp(0) = 1` (correctly rounded ones for
instance), the code returns a strictly smaller value at sunAngle = 5 than at
sunAngle = 180 - 5 = 175, with canopyCover = 0, lai = 0, lightPenetration = 64
in both. -/
theorem sunAngle_symm_fails_in_binary64 :
    JSMath.correctlyRounded.Faithful ∧
    ∀ M : JSMath, M.Faithful →
      calculateAutomaticLightPenetrationF64 M ⟨0, 0, 64, some 5, some 0⟩
        < calculateAutomaticLightPenetrationF64 M ⟨0, 0, 64, some 175, some 0⟩ := by
  refine ⟨JSMath.correctlyRounded_faithful, ?_⟩
  intro M hM
  rw [calculateAutomaticLightPenetrationF64_open M hM 5 (by norm_num),
    calculateAutomaticLightPenetrationF64_open M hM 175 (by norm_num), angleRad_5,
    angleRad_175]
  obtain ⟨ha, ha1, ha2⟩ := faithful_sin_bounds M hM _ sin_angle_5_bounds.1
    sin_angle_5_bounds.2
  obtain ⟨hb, hb1, hb2⟩ := faithful_sin_bounds M hM _ sin_angle_175_bounds.1
    sin_angle_175_bounds.2
  rw [ha, hb]
  have hgap := sin_gap_5_175
  have h5 := sin_angle_5_bounds
  have h175 := sin_angle_175_bounds
  apply tail_strict
  · norm_num at h5 ⊢
    linarith [h5.1]
  · norm_num at hgap ⊢
    linarith
  · norm_num at h175 ⊢
    linarith [h175.2]

lemma F64.roundHalfEven_tie (y : ℝ) (m : ℤ) (hy : y = m + 1 / 2) (hm : m % 2 = 0) :
    F64.roundHalfEven y = m := by
  have hf : ⌊y⌋ = m := by
    rw [Int.floor_eq_iff]
    constructor <;> linarith
  have hfr : Int.fract y = 1 / 2 := by
    rw [Int.fract, hf]
    linarith
  unfold F64.roundHalfEven
  rw [if_neg (by rw [hfr]; norm_num), if_neg (by rw [hfr]; norm_num), hf, if_pos hm]

lemma F64.round_eq_tie (x : ℝ) (e m : ℤ) (h1 : (2 : ℝ) ^ e ≤ x) (h2 : x < (2 : ℝ) ^ (e + 1))
    (hx : x / (2 : ℝ) ^ (e - 52) = m + 1 / 2) (hm : m % 2 = 0) :
    F64.round x = m * (2 : ℝ) ^ (e - 52) := by
  unfold F64.round
  rw [F64.ulp_eq x e h1 h2, F64.roundHalfEven_tie _ m hx hm]

lemma angleRad_30 :
    angleRadF64 30 = 4716158501352293 / 9007199254740992 := by
  unfold angleRadF64
  have h : F64.round (30 * Math.PI) = 3316048946263331 / 35184372088832 := by
    unfold Math.PI
    rw [F64.round_eq_tie _ 6 6632097892526662 (by norm_num) (by norm_num) (by norm_num)
      (by norm_num)]
    norm_num
  rw [h, F64.round_eq _ (-1) 4716158501352293 (by norm_num) (by norm_num)
    (by rw [abs_lt]; constructor <;> norm_num)]
  norm_num

lemma angleRad_150 :
    angleRadF64 150 = 5895198126690367 / 2251799813685248 := by
  unfold angleRadF64
  have h : F64.round (150 * Math.PI) = 1036265295707291 / 2199023255552 := by
    unfold Math.PI
    rw [F64.round_eq _ 8 8290122365658328 (by norm_num) (by norm_num)
      (by rw [abs_lt]; constructor <;> norm_num)]
    norm_num
  rw [h, F64.round_eq _ 1 5895198126690367 (by norm_num) (by norm_num)
    (by rw [abs_lt]; constructor <;> norm_num)]
  norm_num

lemma sqrt_three_bounds : (1732 / 1000 : ℝ) < Real.sqrt 3 ∧ Real.sqrt 3 < 1733 / 1000 := by
  constructor
  · rw [Real.lt_sqrt (by norm_num)]
    norm_num
  · rw [Real.sqrt_lt' (by norm_num)]
    norm_num

/-- Just below pi/6 the sine rounds to the binary64 number before 1/2. -/
lemma round_sin_below_pi_div_six (z : ℝ) (h1 : 45 / 10 ^ 18 ≤ z) (h2 : z ≤ 58 / 10 ^ 18) :
    F64.round (Real.sin (Real.pi / 6 - z)) = 1 / 2 - (2 : ℝ) ^ (-54 : ℤ) := by
  have hz : 0 < z := lt_of_lt_of_le (by norm_num) h1
  obtain ⟨hr1, hr2⟩ := sqrt_three_bounds
  have hsin1 := Real.sin_gt_sub_cube hz (le_trans h2 (by norm_num))
  have hsin2 := Real.sin_lt hz
  have hcos1 := Real.one_sub_sq_div_two_le_cos (x := z)
  have hcos2 := Real.cos_le_one z
  have hsq : z ^ 2 ≤ (58 / 10 ^ 18) ^ 2 := pow_le_pow_left₀ hz.le h2 2
  have hcube : z ^ 3 ≤ z * (58 / 10 ^ 18) ^ 2 := by
    have : z ^ 3 = z * z ^ 2 := by ring
    rw [this]
    exact mul_le_mul_of_nonneg_left hsq hz.le
  have hsz1 : (44 / 10 ^ 18 : ℝ) ≤ Real.sin z := by
    norm_num at hcube ⊢
    nlinarith
  have hsz2 : Real.sin z ≤ 58 / 10 ^ 18 := by linarith
  have hprod1 : (1732 / 1000 : ℝ) / 2 * (44 / 10 ^ 18) ≤ Real.sqrt 3 / 2 * Real.sin z :=
    mul_le_mul (by linarith) hsz1 (by norm_num) (by positivity)
  have hprod2 : Real.sqrt 3 / 2 * Real.sin z ≤ (1733 / 1000 : ℝ) / 2 * (58 / 10 ^ 18) :=
    mul_le_mul (by linarith) hsz2 (le_trans (by norm_num) hsz1) (by norm_num)
  have hval : Real.sin (Real.pi / 6 - z)
      = 1 / 2 * Real.cos z - Real.sqrt 3 / 2 * Real.sin z := by
    rw [Real.sin_sub, Real.sin_pi_div_six, Real.cos_pi_div_six]
  have hlo : (1 / 2 : ℝ) - 51 / 10 ^ 18 ≤ Real.sin (Real.pi / 6 - z) := by
    rw [hval]
    norm_num at hsq hprod2 ⊢
    linarith
  have hhi : Real.sin (Real.pi / 6 - z) ≤ 1 / 2 - 38 / 10 ^ 18 := by
    rw [hval]
    norm_num at hprod1 ⊢
    linarith
  rw [F64.round_eq _ (-2) (2 ^ 53 - 1) (by norm_num; linarith) (by norm_num; linarith)
    (by rw [abs_lt]; constructor <;> norm_num <;> linarith)]
  norm_num

lemma round_sin_angle_30 :
    F64.round (Real.sin (4716158501352293 / 9007199254740992)) = 1 / 2 - (2 : ℝ) ^ (-54 : ℤ) := by
  have hp1 := Real.pi_gt_d20
  have hp2 := Real.pi_lt_d20
  have e : (4716158501352293 / 9007199254740992 : ℝ)
      = Real.pi / 6 - (Real.pi / 6 - 4716158501352293 / 9007199254740992) := by ring
  rw [e]
  apply round_sin_below_pi_div_six
  · norm_num at hp1 ⊢
    linarith
  · norm_num at hp2 ⊢
    linarith

lemma round_sin_angle_150 :
    F64.round (Real.sin (5895198126690367 / 2251799813685248)) = 1 / 2 - (2 : ℝ) ^ (-54 : ℤ) := by
  have hp1 := Real.pi_gt_d20
  have hp2 := Real.pi_lt_d20
  have e : Real.sin (5895198126690367 / 2251799813685248 : ℝ)
      = Real.sin (Real.pi / 6
          - (5895198126690367 / 2251799813685248 - 5 * Real.pi / 6)) := by
    rw [← Real.sin_pi_sub]
    congr 1
    ring
  rw [e]
  apply round_sin_below_pi_div_six
  · norm_num at hp2 ⊢
    linarith
  · norm_num at hp1 ⊢
    linarith

lemma calculateAutomaticLightPenetrationF64_eq_of_sin (M : JSMath) (c : ForestControls)
    (a b : ℝ) (ha : a ≠ 0) (hb : b ≠ 0)
    (h : M.sin (angleRadF64 a) = M.sin (angleRadF64 b)) :
    calculateAutomaticLightPenetrationF64 M { c with sunAngle := some a }
      = calculateAutomaticLightPenetrationF64 M { c with sunAngle := some b } := by
  have hora : orDefault (some a) 45 = a := by simp [orDefault, ha]
  have horb : orDefault (some b) 45 = b := by simp [orDefault, hb]
  simp only [calculateAutomaticLightPenetrationF64, hora, horb, h]

/-- C9 (amended): the value at sunAngle = 30 equals the value at sunAngle = 150,
all else equal: in exact real arithmetic, and in binary64 arithmetic whenever
`Math.sin` returns the correctly rounded sine at the two rounded angles (both
results are then the binary64 number just below 1/2). -/
theorem sunAngle_30_150_symm (M : JSMath) (c : ForestControls)
    (h30 : M.SinCorrectlyRoundedAt (angleRadF64 30))
    (h150 : M.SinCorrectlyRoundedAt (angleRadF64 150)) :
    calculateAutomaticLightPenetration { c with sunAngle := some 30 }
      = calculateAutomaticLightPenetration { c with sunAngle := some 150 } ∧
    calculateAutomaticLightPenetrationF64 M { c with sunAngle := some 30 }
      = calculateAutomaticLightPenetrationF64 M { c with sunAngle := some 150 } := by
  refine ⟨(calculateAutomaticLightPenetration_sunAngle_symm_real c).2, ?_⟩
  apply calculateAutomaticLightPenetrationF64_eq_of_sin M c 30 150 (by norm_num) (by norm_num)
  unfold JSMath.SinCorrectlyRoundedAt at h30 h150
  rw [h30, h150, angleRad_30, angleRad_150, round_sin_angle_30, round_sin_angle_150]

/-- Witness of C9 (amended): correctly rounded `Math.sin` at the thorn-forest
defaults. -/
theorem sunAngle_30_150_symm_witness :
    calculateAutomaticLightPenetration
        { (⟨25, 1.5, 95, some 55, some 15⟩ : ForestControls) with sunAngle := some 30 }
      = calculateAutomaticLightPenetration
        { (⟨25, 1.5, 95, some 55, some 15⟩ : ForestControls) with sunAngle := some 150 } ∧
    calculateAutomaticLightPenetrationF64 JSMath.correctlyRounded
        { (⟨25, 1.5, 95, some 55, some 15⟩ : ForestControls) with sunAngle := some 30 }
      = calculateAutomaticLightPenetrationF64 JSMath.correctlyRounded
        { (⟨25, 1.5, 95, some 55, some 15⟩ : ForestControls) with sunAngle := some 150 } :=
  sunAngle_30_150_symm JSMath.correctlyRounded ⟨25, 1.5, 95, some 55, some 15⟩ rfl rfl

end ForestLayer
